import Mathlib

/-!
# Verification of the impact-atmosphere date/solar/season engine

Shallow embedding of `src/demo/lib/plugins/atmosphere.js` (the Impact
Atmospheric System plugin).  JavaScript numbers are modelled exactly:
calendar and day-number arithmetic (which the code performs on values with
small power-of-two denominators) is modelled over `ℚ`/`ℤ`, and the solar
trigonometry is modelled over `ℝ`, with an `Option ℝ` wrapper (`JSNum`)
whose `none` stands for the non-finite results (NaN/Infinity) that
`Math.acos` outside `[-1, 1]` and division by zero produce.  `Math.floor`
is integer floor, and the JavaScript `%` operator (which truncates the
quotient toward zero) is modelled explicitly.

The `new Date(year, month, day, hour, minute, second, ms)` constructor and
its field getters, which the code uses to normalize stored dates, are
modelled by `jsDateNormalize`: the ECMAScript MakeDay/MakeTime evaluation
(including the two-digit-year adjustment `0 ≤ y ≤ 99 ↦ y + 1900`) followed
by decomposition of the resulting instant back into calendar fields.
MakeDay is implemented with the standard proleptic-Gregorian civil-day
algorithms `daysFromCivil`/`civilFromDays`, proved below to be mutually
inverse and to produce canonical dates.  Local time and UTC are identified
(a fixed-offset timezone cancels in every round-trip statement), and the
±1e8-day Date range clamp is idealized away.
-/

/-! ## Calendar kernel: civil days -/

/-- Proleptic-Gregorian civil date to days since 1970-01-01
(Howard Hinnant's `days_from_civil`, March-based year). -/
def daysFromCivil (y m d : ℤ) : ℤ :=
  let y2 := y - (if m ≤ 2 then 1 else 0)
  let era := y2 / 400
  let yoe := y2 - era * 400
  let mp := (m + 9) % 12
  let doy := (153 * mp + 2) / 5 + d - 1
  let doe := yoe * 365 + yoe / 4 - yoe / 100 + doy
  era * 146097 + doe - 719468

/-- Decompose a day-of-era `doe ∈ [0, 146096]` of era `era` into a civil
date (year, month, day).  Century and year-of-century are recovered with
Euclidean-affine inverses in the style of Neri-Schneider. -/
def civilOfEraDoe (era doe : ℤ) : ℤ × ℤ × ℤ :=
  let c := (4 * doe + 3) / 146097
  let doc := doe - 36524 * c
  let yic := (4 * doc + 3) / 1461
  let doy := doc - (365 * yic + yic / 4)
  let yoe := 100 * c + yic
  let mp := (5 * doy + 2) / 153
  let d := doy - (153 * mp + 2) / 5 + 1
  let m := mp + (if mp < 10 then 3 else -9)
  (yoe + era * 400 + (if m ≤ 2 then 1 else 0), m, d)

/-- Days since 1970-01-01 to proleptic-Gregorian civil date. -/
def civilFromDays (z : ℤ) : ℤ × ℤ × ℤ :=
  civilOfEraDoe ((z + 719468) / 146097) ((z + 719468) % 146097)

def isLeap (y : ℤ) : Prop := (y % 4 = 0 ∧ y % 100 ≠ 0) ∨ y % 400 = 0

instance : DecidablePred isLeap := fun y => by unfold isLeap; infer_instance

def daysInMonth (y m : ℤ) : ℤ :=
  if m = 2 then (if isLeap y then 29 else 28)
  else if m = 4 ∨ m = 6 ∨ m = 9 ∨ m = 11 then 30 else 31

/-! ## Calendar data and the JS Date constructor -/

/-- The stored calendar date of the plugin (`this.gregorianDate`):
year/month(1-12)/day/hour/minute/second/millisecond. -/
structure GDate where
  year : ℤ
  month : ℤ
  day : ℤ
  hour : ℤ
  minute : ℤ
  second : ℤ
  millisecond : ℤ
deriving DecidableEq

/-- JavaScript ToIntegerOrInfinity on a finite number: truncate toward 0. -/
def jsTruncQ (x : ℚ) : ℤ := if 0 ≤ x then ⌊x⌋ else ⌈x⌉

/-- The JavaScript binary `%` on exact rationals:
`a % b = a - b * truncate (a / b)` (sign follows the dividend). -/
def jsModQ (a b : ℚ) : ℚ := a - b * jsTruncQ (a / b)

/-- Model of `new Date(Y, Mon, D, H, Mi, S, ms)` followed by reading the
seven local-time getters (`getFullYear` … `getMilliseconds`), as the plugin
does in `setDateTime`.  This is ECMAScript MakeDay/MakeTime/MakeFullYear
(with the two-digit-year adjustment) and the canonical decomposition of
the resulting millisecond instant; local time ≡ UTC in this model and the
±1e8-day range clamp is idealized away. -/
def jsDateNormalize (Y Mon D H Mi S : ℤ) (ms : ℚ) : GDate :=
  let Y2 := if 0 ≤ Y ∧ Y ≤ 99 then Y + 1900 else Y
  let ym := Y2 + Mon / 12
  let mn := Mon % 12
  let day := daysFromCivil ym (mn + 1) 1 + D - 1
  let total := day * 86400000 + (((H * 60 + Mi) * 60 + S) * 1000 + jsTruncQ ms)
  let dq := total / 86400000
  let r := total % 86400000
  { year := (civilFromDays dq).1, month := (civilFromDays dq).2.1,
    day := (civilFromDays dq).2.2, hour := r / 3600000,
    minute := r % 3600000 / 60000, second := r % 60000 / 1000,
    millisecond := r % 1000 }

/-- The millisecond instant denoted by a stored date (days since epoch in
the proleptic Gregorian calendar, plus the time of day).  Two dates are
"equal to within ±1 second" when their instants differ by at most 1000. -/
def dateInstantMs (g : GDate) : ℤ :=
  daysFromCivil g.year g.month g.day * 86400000 +
    ((g.hour * 60 + g.minute) * 60 + g.second) * 1000 + g.millisecond

/-! ## atmosphere.js: Gregorian → Julian conversion -/

/-- Integer part of `convertGregorianToJulian` (atmosphere.js 416-438):
the day-number terms `floor(146097 c / 4) + floor(36525 d / 100) +
floor((153 e + 2) / 5) + gDay + 1721119`.  `Math.floor` of a real quotient
is `Int.ediv` by a positive constant; the JavaScript `b % 100` truncates
toward zero, hence `Int.tmod`. -/
def gregToJulianDay (y mo dy : ℤ) : ℤ :=
  let a := (mo - 3) / 12
  let b := y + a
  let c := b / 100
  let d := Int.tmod b 100
  let e := mo - 12 * a - 3
  146097 * c / 4 + 36525 * d / 100 + (153 * e + 2) / 5 + dy + 1721119

/-- `convertGregorianToJulian` (atmosphere.js 416-438). -/
def convertGregorianToJulian (g : GDate) : ℚ :=
  (gregToJulianDay g.year g.month g.day : ℚ) +
    (g.hour - 12) / 24 + g.minute / 1440 + g.second / 86400 + g.millisecond / 86400000

/-! ## atmosphere.js: Julian → Gregorian conversion -/

/-- `convertJulianToGregorian` (atmosphere.js 441-467).  The local
variables `f…w` and the decoded fields `Y M D H N S m` mirror the source;
the final manual correction `D += (12 ≤ H < 18 ? 1 : 0)` is applied before
the `new Date(Y, M-1, D, H, N, S, m)` construction, which normalizes the
fields. -/
def convertJulianToGregorian (jd : ℚ) : GDate :=
  let f : ℚ := 4 * (jd - 1721120) + 3
  let g : ℤ := ⌊f / 146097⌋
  let fm : ℚ := jsModQ f 146097
  let h : ℤ := 100 * ⌊fm / 4⌋ + 99
  let i : ℤ := h / 36525
  let j : ℤ := 5 * (Int.tmod h 36525 / 100) + 2
  let k : ℤ := j / 153
  let l : ℤ := (k + 2) / 12
  let t : ℚ := jsModQ jd 1
  let u : ℚ := 1 / 24
  let v : ℚ := 1 / 1440
  let w : ℚ := 1 / 86400
  let Y : ℤ := 100 * g + i + l
  let M : ℤ := k - 12 * l + 3
  let D : ℤ := Int.tmod j 153 / 5
  let H : ℤ := ⌊t / u⌋ + 12
  let N : ℤ := ⌊jsModQ t u / v⌋
  let S : ℤ := ⌊jsModQ t v / w⌋
  let m : ℤ := ⌊jsModQ t w / (1 / 86400000)⌋
  let D2 : ℤ := D + (if 12 ≤ H ∧ H < 18 then 1 else 0)
  jsDateNormalize Y (M - 1) D2 H N S (m : ℚ)

/-! ## atmosphere.js: updateDateTime (the clock advance) -/

/-- `updateDateTime` (atmosphere.js 331-340): build
`new Date(year, month-1, day, hour, minute, second, ms + update_rate*timescale*1000)`
from the stored fields and re-extract all seven fields (`setDateTime`). -/
def updateDateTime (g : GDate) (update_rate timescale : ℚ) : GDate :=
  jsDateNormalize g.year (g.month - 1) g.day g.hour g.minute g.second
    ((g.millisecond : ℚ) + update_rate * timescale * 1000)

/-! ## atmosphere.js: the solar model over JavaScript numbers

`JSNum` models an IEEE double as either a finite real (`some x`) or a
non-finite value — NaN or ±Infinity — (`none`).  The operations used by
`computeSunriset` produce non-finite values exactly through `Math.acos` /
`Math.asin` outside `[-1, 1]` and division by zero, and every arithmetic
operation propagates them; downstream of the code's `acos` only
`+ - * /` by finite values are applied, for which NaN and ±Infinity
propagate alike, so collapsing both into `none` is faithful there. -/

abbrev JSNum : Type := Option ℝ

def jadd : JSNum → JSNum → JSNum
  | some a, some b => some (a + b)
  | _, _ => none

def jsub : JSNum → JSNum → JSNum
  | some a, some b => some (a - b)
  | _, _ => none

def jmul : JSNum → JSNum → JSNum
  | some a, some b => some (a * b)
  | _, _ => none

noncomputable def jdiv : JSNum → JSNum → JSNum
  | some a, some b => if b = 0 then none else some (a / b)
  | _, _ => none

noncomputable def jsinN : JSNum → JSNum
  | some a => some (Real.sin a)
  | none => none

noncomputable def jcosN : JSNum → JSNum
  | some a => some (Real.cos a)
  | none => none

/-- `Math.asin`: NaN outside `[-1, 1]`. -/
noncomputable def jasinN : JSNum → JSNum
  | some a => if -1 ≤ a ∧ a ≤ 1 then some (Real.arcsin a) else none
  | none => none

/-- `Math.acos`: NaN outside `[-1, 1]`. -/
noncomputable def jacosN : JSNum → JSNum
  | some a => if -1 ≤ a ∧ a ≤ 1 then some (Real.arccos a) else none
  | none => none

/-- JavaScript truncation toward zero on a finite real. -/
noncomputable def jsTruncR (x : ℝ) : ℤ := if 0 ≤ x then ⌊x⌋ else ⌈x⌉

/-- The JavaScript `%` on finite reals. -/
noncomputable def jsModR (a b : ℝ) : ℝ := a - b * jsTruncR (a / b)

/-- `Math.round x = ⌊x + 1/2⌋`. -/
noncomputable def jroundN : JSNum → JSNum
  | some a => some ((⌊a + 1/2⌋ : ℤ) : ℝ)
  | none => none

noncomputable def jmodN : JSNum → JSNum → JSNum
  | some a, some b => if b = 0 then none else some (jsModR a b)
  | _, _ => none

/-- `toRadians` (atmosphere.js 831). -/
noncomputable def toRadiansN (x : JSNum) : JSNum :=
  jdiv (jmul x (some Real.pi)) (some 180)

/-- `toDegrees` (atmosphere.js 834). -/
noncomputable def toDegreesN (x : JSNum) : JSNum :=
  jdiv (jmul x (some 180)) (some Real.pi)

/-- `julianCycle` (atmosphere.js 471). -/
noncomputable def julianCycleJ (jd lng : ℝ) : JSNum :=
  jroundN (jadd (jsub (jsub (some jd) (some 2451545)) (some 0.0009)) (some (lng / 360)))

/-- `solar_noon` (atmosphere.js 472). -/
noncomputable def solarNoonJ (jd lng : ℝ) : JSNum :=
  jadd (jsub (jadd (some 2451545) (some 0.0009)) (some (lng / 360))) (julianCycleJ jd lng)

/-- `solar_mean_anomaly` (atmosphere.js 473). -/
noncomputable def solarMeanAnomalyJ (jd lng : ℝ) : JSNum :=
  jmodN (jadd (some 357.5291) (jmul (some 0.98560028)
    (jsub (solarNoonJ jd lng) (some 2451545)))) (some 360)

/-- `equation_of_center` (atmosphere.js 474-476). -/
noncomputable def equationOfCenterJ (jd lng : ℝ) : JSNum :=
  jadd (jadd (jmul (some 1.9148) (jsinN (toRadiansN (solarMeanAnomalyJ jd lng))))
    (jmul (some 0.0200) (jsinN (toRadiansN (jmul (some 2) (solarMeanAnomalyJ jd lng))))))
    (jmul (some 0.0003) (jsinN (toRadiansN (jmul (some 3) (solarMeanAnomalyJ jd lng)))))

/-- `ecliptic_longitude` (atmosphere.js 477). -/
noncomputable def eclipticLongitudeJ (jd lng : ℝ) : JSNum :=
  jmodN (jadd (jadd (jadd (solarMeanAnomalyJ jd lng) (some 102.9372))
    (equationOfCenterJ jd lng)) (some 180)) (some 360)

/-- `solar_transit` (atmosphere.js 478-480). -/
noncomputable def solarTransitJ (jd lng : ℝ) : JSNum :=
  jsub (jadd (solarNoonJ jd lng)
      (jmul (some 0.0053) (jsinN (toRadiansN (solarMeanAnomalyJ jd lng)))))
    (jmul (some 0.0069) (jsinN (toRadiansN (jmul (some 2) (eclipticLongitudeJ jd lng)))))

/-- `declination_of_sun` (atmosphere.js 481-484). -/
noncomputable def declinationOfSunJ (jd lng : ℝ) : JSNum :=
  toDegreesN (jasinN (jmul (jsinN (toRadiansN (eclipticLongitudeJ jd lng)))
    (jsinN (toRadiansN (some 23.45)))))

/-- The argument of `Math.acos` in the `hour_angle` step
(atmosphere.js 485-488); this is the expression whose exit from `[-1, 1]`
defines the polar failure mode. -/
noncomputable def hourAngleAcosArg (jd lat lng : ℝ) : JSNum :=
  jdiv (jsub (jsinN (toRadiansN (some (-0.83))))
      (jmul (jsinN (toRadiansN (some lat))) (jsinN (toRadiansN (declinationOfSunJ jd lng)))))
    (jmul (jcosN (toRadiansN (some lat))) (jcosN (toRadiansN (declinationOfSunJ jd lng))))

/-- `hour_angle` (atmosphere.js 485-488). -/
noncomputable def hourAngleJ (jd lat lng : ℝ) : JSNum :=
  toDegreesN (jacosN (hourAngleAcosArg jd lat lng))

/-- `julian_hour_angle` (atmosphere.js 489). -/
noncomputable def julianHourAngleJ (jd lat lng : ℝ) : JSNum :=
  jadd (jadd (jadd (some 2451545) (some 0.0009))
    (jdiv (jsub (hourAngleJ jd lat lng) (some lng)) (some 360))) (julianCycleJ jd lng)

/-- `sunset` (atmosphere.js 490-492). -/
noncomputable def sunsetRawJ (jd lat lng : ℝ) : JSNum :=
  jsub (jadd (julianHourAngleJ jd lat lng)
      (jmul (some 0.0053) (jsinN (toRadiansN (solarMeanAnomalyJ jd lng)))))
    (jmul (some 0.0069) (jsinN (toRadiansN (jmul (some 2) (eclipticLongitudeJ jd lng)))))

/-- `sunrise` (atmosphere.js 493). -/
noncomputable def sunriseRawJ (jd lat lng : ℝ) : JSNum :=
  jsub (solarTransitJ jd lng) (jsub (sunsetRawJ jd lat lng) (solarTransitJ jd lng))

/-- `next_update` (atmosphere.js 501): recompute once per civil day at the
fixed pre-dawn fraction `K = 0.7063657403923571`. -/
noncomputable def nextUpdateR (jd : ℝ) : ℝ :=
  (⌊jd⌋ : ℝ) + 0.7063657403923571 + (if jsModR jd 1 < 0.7063657403923571 then 0 else 1)

structure SolarEvent where
  date : JSNum
  duration : ℝ

structure SolarState where
  sunrise : SolarEvent
  sunset : SolarEvent
  next_update : ℝ

/-- `sunrise.date` (atmosphere.js 498): `sunrise - duration/1440 - 0.125`. -/
noncomputable def sunriseDateJ (jd lat lng srDur : ℝ) : JSNum :=
  jsub (jsub (sunriseRawJ jd lat lng) (some (srDur / 1440))) (some 0.125)

/-- `sunset.date` (atmosphere.js 499): `sunset - duration/1440 - 0.125`. -/
noncomputable def sunsetDateJ (jd lat lng ssDur : ℝ) : JSNum :=
  jsub (jsub (sunsetRawJ jd lat lng) (some (ssDur / 1440))) (some 0.125)

/-- `computeSunriset` (atmosphere.js 470-508).  The two transition
durations are the fields of `this.solar`, which the plugin initializes to
60 and never changes; they are passed here as parameters. -/
noncomputable def computeSunriset (jd lat lng srDur ssDur : ℝ) : SolarState :=
  { sunrise := { date := sunriseDateJ jd lat lng srDur, duration := srDur }
    sunset := { date := sunsetDateJ jd lat lng ssDur, duration := ssDur }
    next_update := nextUpdateR jd }

/-- `computeSunriset` as called by the running plugin (durations 60). -/
noncomputable def computeSunrisetDefault (jd lat lng : ℝ) : SolarState :=
  computeSunriset jd lat lng 60 60

/-! ## computeSeasons (atmosphere.js 567-642)

`computeSeasons` scans four fixed four-day windows (the 20th to the 23rd of
March, June, September and December, sampled at noon) and keeps, per
window, the candidate day with the smallest day length (vernal, autumnal,
hibernal — initial best length `1`) or the largest (estival — initial best
length `0`).  The candidate day number starts at the sentinel `-1`.  The
JavaScript `<` and `>` comparisons are false whenever a side is NaN. -/

/-- JavaScript `a < b`: false when either side is NaN. -/
def jltP : JSNum → JSNum → Prop
  | some a, some b => a < b
  | _, _ => False

/-- JavaScript `a <= b`: false when either side is NaN. -/
def jleP : JSNum → JSNum → Prop
  | some a, some b => a ≤ b
  | _, _ => False

/-- `day_length.sunset.date - day_length.sunrise.date` for
`day_length = computeSunriset(v, geoCoords)` (atmosphere.js 587-589). -/
noncomputable def dayLengthJ (lat lng v : ℝ) : JSNum :=
  jsub (computeSunrisetDefault v lat lng).sunset.date
    (computeSunrisetDefault v lat lng).sunrise.date

open Classical in

/-- One iteration of the vernal/autumnal/hibernal loops: keep `v` iff its
day length is strictly below the best so far (atmosphere.js 586-593). -/
noncomputable def seasonStepMin (lat lng v : ℝ) (st : ℝ × JSNum) : ℝ × JSNum :=
  if jltP (dayLengthJ lat lng v) st.2 then (v, dayLengthJ lat lng v) else st

open Classical in

/-- One iteration of the estival loop: keep `v` iff its day length is
strictly above the best so far (atmosphere.js 596-603). -/
noncomputable def seasonStepMax (lat lng v : ℝ) (st : ℝ × JSNum) : ℝ × JSNum :=
  if jltP st.2 (dayLengthJ lat lng v) then (v, dayLengthJ lat lng v) else st

/-- A min-selection window: the loop body at `vmin`, `vmin+1`, `vmin+2`,
`vmin+3`, starting from candidate `-1` with best length `1`. -/
noncomputable def seasonFoldMin (lat lng vmin : ℝ) : ℝ × JSNum :=
  seasonStepMin lat lng (vmin + 3) (seasonStepMin lat lng (vmin + 2)
    (seasonStepMin lat lng (vmin + 1) (seasonStepMin lat lng vmin ((-1 : ℝ), some 1))))

/-- A max-selection window: the loop body at `vmin`, `vmin+1`, `vmin+2`,
`vmin+3`, starting from candidate `-1` with best length `0`. -/
noncomputable def seasonFoldMax (lat lng vmin : ℝ) : ℝ × JSNum :=
  seasonStepMax lat lng (vmin + 3) (seasonStepMax lat lng (vmin + 2)
    (seasonStepMax lat lng (vmin + 1) (seasonStepMax lat lng vmin ((-1 : ℝ), some 0))))

structure SeasonState where
  vernal_equinox : ℝ
  estival_solstice : ℝ
  autumnal_equinox : ℝ
  hibernal_solstice : ℝ

/-- `computeSeasons` (atmosphere.js 567-642), kept season fields only.
The four window bases are `convertGregorianToJulian` at noon of the 20th
of March, June, September and December of the given date's year. -/
noncomputable def computeSeasons (g : GDate) (lat lng : ℝ) : SeasonState :=
  let vbase : ℝ := ((convertGregorianToJulian ⟨g.year, 3, 20, 12, 0, 0, 0⟩ : ℚ) : ℝ)
  let ebase : ℝ := ((convertGregorianToJulian ⟨g.year, 6, 20, 12, 0, 0, 0⟩ : ℚ) : ℝ)
  let abase : ℝ := ((convertGregorianToJulian ⟨g.year, 9, 20, 12, 0, 0, 0⟩ : ℚ) : ℝ)
  let hbase : ℝ := ((convertGregorianToJulian ⟨g.year, 12, 20, 12, 0, 0, 0⟩ : ℚ) : ℝ)
  { vernal_equinox := (seasonFoldMin lat lng vbase).1
    estival_solstice := (seasonFoldMax lat lng ebase).1
    autumnal_equinox := (seasonFoldMin lat lng abase).1
    hibernal_solstice := (seasonFoldMin lat lng hbase).1 }

/-! ## updateGeoCoords (atmosphere.js 397-413) -/

/-- The stored `geo_coords` after `updateGeoCoords(lat, lng)`: latitude
clamped to `[-90, 90]`, longitude clamped to `[-180, 180]`. -/
def updateGeoCoords (lat lng : ℚ) : ℚ × ℚ :=
  (if lat < -90 then -90 else if lat > 90 then 90 else lat,
   if lng < -180 then -180 else if lng > 180 then 180 else lng)

/-! ## draw: sun state and overlay alpha (atmosphere.js 180-207)

`draw` compares the current day number against the stored `SolarState` and
sets `sun_state` together with the alpha of the black overlay rectangle.
`drawSun` returns the pair `(sun_state, alpha)`; the alpha is a `JSNum`
because a NaN solar date makes the interpolated branches produce NaN. -/

open Classical in
noncomputable def drawSun (jd : ℝ) (sol : SolarState) (brightness_night : ℝ) :
    ℤ × JSNum :=
  if jleP sol.sunrise.date (some jd) ∧ jltP (some jd) sol.sunset.date then
    if jleP (jadd sol.sunrise.date (some (sol.sunrise.duration / 1440))) (some jd) then
      (1, some 0)
    else
      (0, jsub (some brightness_night) (jdiv (jmul (some brightness_night)
        (jsub (some jd) sol.sunrise.date)) (some (sol.sunrise.duration / 1440))))
  else
    if jleP (jadd sol.sunset.date (some (sol.sunset.duration / 1440))) (some jd) ∨
        (0.5 ≤ jsModR jd 1 ∧ jd < sol.next_update) then
      (3, some brightness_night)
    else
      (2, jdiv (jmul (some brightness_night) (jsub (some jd) sol.sunset.date))
        (some (sol.sunset.duration / 1440)))

/-! ## Real-valued forms of the solar chain

Each `...R` definition is the finite real value of the corresponding
`...J` step; the `..._eq` theorems below certify the correspondence, so
the `R` forms are derived from (not a re-reading of) the source chain. -/


noncomputable def julianCycleR (jd lng : ℝ) : ℝ :=
  ((⌊jd - 2451545 - 0.0009 + lng / 360 + 1/2⌋ : ℤ) : ℝ)

noncomputable def solarNoonR (jd lng : ℝ) : ℝ :=
  2451545 + 0.0009 - lng / 360 + julianCycleR jd lng

noncomputable def solarMeanAnomalyR (jd lng : ℝ) : ℝ :=
  jsModR (357.5291 + 0.98560028 * (solarNoonR jd lng - 2451545)) 360

noncomputable def equationOfCenterR (jd lng : ℝ) : ℝ :=
  1.9148 * Real.sin (solarMeanAnomalyR jd lng * Real.pi / 180) +
    0.0200 * Real.sin (2 * solarMeanAnomalyR jd lng * Real.pi / 180) +
    0.0003 * Real.sin (3 * solarMeanAnomalyR jd lng * Real.pi / 180)

noncomputable def eclipticLongitudeR (jd lng : ℝ) : ℝ :=
  jsModR (solarMeanAnomalyR jd lng + 102.9372 + equationOfCenterR jd lng + 180) 360

noncomputable def solarTransitR (jd lng : ℝ) : ℝ :=
  solarNoonR jd lng + 0.0053 * Real.sin (solarMeanAnomalyR jd lng * Real.pi / 180) -
    0.0069 * Real.sin (2 * eclipticLongitudeR jd lng * Real.pi / 180)

noncomputable def declinationOfSunR (jd lng : ℝ) : ℝ :=
  Real.arcsin (Real.sin (eclipticLongitudeR jd lng * Real.pi / 180) *
    Real.sin (23.45 * Real.pi / 180)) * 180 / Real.pi

/-- A coordinate is non-polar at day number `jd` when the `Math.acos`
argument of the hour-angle step is strictly inside `[-1, 1]`.  The
boundary values are the degenerate polar-grazing configurations: at `1`
the formula's day has zero length (sunrise = sunset), at `-1` it lasts the
full 24 hours, and the strict inequalities of the spec fail there. -/
def NonPolarAt (lat lng jd : ℝ) : Prop :=
  ∃ a, hourAngleAcosArg jd lat lng = some a ∧ -1 < a ∧ a < 1

/-! ## Theorems -/

example : daysFromCivil 1970 1 1 = 0 := by decide

example : daysFromCivil 2000 1 1 = 10957 := by decide

example : civilFromDays 0 = (1970, 1, 1) := by decide

example : civilFromDays 11016 = (2000, 2, 29) := by decide

example : daysInMonth 2000 2 = 29 ∧ daysInMonth 1900 2 = 28 := by decide

/-- `daysFromCivil` splits into an era part, a year-of-era part and a
day-of-year part.  Purely definitional restructuring. -/
theorem daysFromCivil_split (y m d : ℤ) :
    daysFromCivil y m d =
      146097 * ((y - (if m ≤ 2 then 1 else 0)) / 400) +
        ((y - (if m ≤ 2 then 1 else 0)) % 400) * 365 +
        ((y - (if m ≤ 2 then 1 else 0)) % 400) / 4 -
        ((y - (if m ≤ 2 then 1 else 0)) % 400) / 100 +
        ((153 * ((m + 9) % 12) + 2) / 5 + d - 1) - 719468 := by
  simp only [daysFromCivil]
  have h := Int.emod_def (y - (if m ≤ 2 then 1 else 0)) 400
  omega

/-- `daysFromCivil` is linear in the day argument. -/
theorem daysFromCivil_day (y m d : ℤ) :
    daysFromCivil y m d = daysFromCivil y m 1 + d - 1 := by
  simp only [daysFromCivil]
  omega

/-- Main kernel lemma: decomposing a day of era `era` yields a civil triple
that `daysFromCivil` maps back to the same day, with canonical month and
day-of-month fields. -/
theorem civilOfEraDoe_spec (era doe : ℤ) (h0 : 0 ≤ doe) (h1 : doe ≤ 146096) :
    daysFromCivil (civilOfEraDoe era doe).1 (civilOfEraDoe era doe).2.1
        (civilOfEraDoe era doe).2.2 = 146097 * era + doe - 719468 ∧
    1 ≤ (civilOfEraDoe era doe).2.1 ∧ (civilOfEraDoe era doe).2.1 ≤ 12 ∧
    1 ≤ (civilOfEraDoe era doe).2.2 ∧
    (civilOfEraDoe era doe).2.2 ≤
      daysInMonth (civilOfEraDoe era doe).1 (civilOfEraDoe era doe).2.1 := by
  obtain ⟨c, yic, doy, mp, m, d, y, hc, hyic, hdoy, hmp, hm, hd, hy, heq⟩ :
      ∃ c yic doy mp m d y, c = (4 * doe + 3) / 146097 ∧
        yic = (4 * (doe - 36524 * c) + 3) / 1461 ∧
        doy = doe - 36524 * c - (365 * yic + yic / 4) ∧
        mp = (5 * doy + 2) / 153 ∧
        m = mp + (if mp < 10 then 3 else -9) ∧
        d = doy - (153 * mp + 2) / 5 + 1 ∧
        y = 100 * c + yic + era * 400 + (if m ≤ 2 then 1 else 0) ∧
        civilOfEraDoe era doe = (y, m, d) :=
    ⟨_, _, _, _, _, _, _, rfl, rfl, rfl, rfl, rfl, rfl, rfl, rfl⟩
  rw [heq]
  dsimp only
  -- bounds for the century decomposition
  have hcb : 0 ≤ c ∧ c ≤ 3 ∧ 36524 * c ≤ doe ∧
      doe - 36524 * c ≤ 36523 + (if c = 3 then 1 else 0) := by
    split_ifs <;> omega
  have hdocb : 0 ≤ doe - 36524 * c ∧ doe - 36524 * c ≤ 36524 := by
    rcases hcb with ⟨a, b, cc, dd⟩; split_ifs at dd <;> omega
  -- bounds for the year-of-century decomposition, with the leap-day facts
  have hyb : 0 ≤ yic ∧ yic ≤ 99 ∧ 365 * yic + yic / 4 ≤ doe - 36524 * c ∧
      0 ≤ doy ∧ doy ≤ 365 ∧ (doy = 365 → yic % 4 = 3) ∧
      (doy = 365 → yic = 99 → doe - 36524 * c = 36524) := by
    omega
  have hcen3 : doe - 36524 * c = 36524 → c = 3 := by
    rcases hcb with ⟨a, b, cc, dd⟩; split_ifs at dd <;> omega
  -- bounds for the month decomposition
  have hmb : 0 ≤ mp ∧ mp ≤ 11 ∧ (153 * mp + 2) / 5 ≤ doy ∧
      doy - (153 * mp + 2) / 5 + 1 ≤ (153 * (mp + 1) + 2) / 5 - (153 * mp + 2) / 5 := by
    omega
  -- month field is canonical and determines the if-branches
  have hmd : (mp ≤ 9 ∧ m = mp + 3) ∨ (10 ≤ mp ∧ m = mp - 9) := by
    rw [hm]; split_ifs <;> omega
  have hmrange : 1 ≤ m ∧ m ≤ 12 := by omega
  have hmpm : (m + 9) % 12 = mp := by omega
  -- the March-based year of the output
  have hI : y - (if m ≤ 2 then 1 else 0) = 400 * era + (100 * c + yic) := by
    rw [hy]; split_ifs <;> omega
  have h400a : (400 * era + (100 * c + yic)) / 400 = era := by omega
  have h400b : (400 * era + (100 * c + yic)) % 400 = 100 * c + yic := by omega
  have h4 : (100 * c + yic) / 4 = 25 * c + yic / 4 := by omega
  have h100 : (100 * c + yic) / 100 = c := by omega
  refine ⟨?_, hmrange.1, hmrange.2, by omega, ?_⟩
  · rw [daysFromCivil_split, hI, h400a, h400b, h4, h100, hmpm]
    omega
  · -- day-of-month bound, per month
    rw [daysInMonth]
    split_ifs with h2 hleap h30
    · -- February, leap year: 29 days
      omega
    · -- February, non-leap year: day 29 would force a leap year
      by_contra hcon
      apply hleap
      have hmp11 : mp = 11 := by omega
      have h365 : doy = 365 := by omega
      have hy4 : yic % 4 = 3 := (hyb.2.2.2.2.2.1) h365
      have hyv : y = 400 * era + 100 * c + yic + 1 := by
        rw [hy]; split_ifs <;> omega
      by_cases h99 : yic = 99
      · have hc3 : c = 3 := hcen3 (hyb.2.2.2.2.2.2 h365 h99)
        exact Or.inr (by omega)
      · exact Or.inl (by constructor <;> omega)
    · -- 30-day months
      omega
    · -- 31-day months
      omega

theorem civilFromDays_inv (z : ℤ) :
    daysFromCivil (civilFromDays z).1 (civilFromDays z).2.1 (civilFromDays z).2.2 = z := by
  have h := civilOfEraDoe_spec ((z + 719468) / 146097) ((z + 719468) % 146097)
    (Int.emod_nonneg _ (by norm_num)) (by
      have := Int.emod_lt_of_pos (z + 719468) (show (0:ℤ) < 146097 by norm_num)
      omega)
  rw [civilFromDays]
  have hz : 146097 * ((z + 719468) / 146097) + (z + 719468) % 146097 = z + 719468 := by
    omega
  omega

theorem civilFromDays_canon (z : ℤ) :
    1 ≤ (civilFromDays z).2.1 ∧ (civilFromDays z).2.1 ≤ 12 ∧
    1 ≤ (civilFromDays z).2.2 ∧
    (civilFromDays z).2.2 ≤ daysInMonth (civilFromDays z).1 (civilFromDays z).2.1 := by
  have h := civilOfEraDoe_spec ((z + 719468) / 146097) ((z + 719468) % 146097)
    (Int.emod_nonneg _ (by norm_num)) (by
      have := Int.emod_lt_of_pos (z + 719468) (show (0:ℤ) < 146097 by norm_num)
      omega)
  rw [civilFromDays]
  exact ⟨h.2.1, h.2.2.1, h.2.2.2.1, h.2.2.2.2⟩

/-- The instant of a normalized date is the instant that was fed in. -/
theorem dateInstantMs_jsDateNormalize (Y Mon D H Mi S : ℤ) (ms : ℚ) :
    dateInstantMs (jsDateNormalize Y Mon D H Mi S ms) =
      (daysFromCivil ((if 0 ≤ Y ∧ Y ≤ 99 then Y + 1900 else Y) + Mon / 12) (Mon % 12 + 1) 1
          + D - 1) * 86400000 + (((H * 60 + Mi) * 60 + S) * 1000 + jsTruncQ ms) := by
  simp only [jsDateNormalize, dateInstantMs]
  have h := civilFromDays_inv
    (((daysFromCivil ((if 0 ≤ Y ∧ Y ≤ 99 then Y + 1900 else Y) + Mon / 12) (Mon % 12 + 1) 1
        + D - 1) * 86400000 + (((H * 60 + Mi) * 60 + S) * 1000 + jsTruncQ ms)) / 86400000)
  omega

/-- A normalized date has canonical fields: month in 1..12, day within the
month (February respecting leap years), time fields in range. -/
theorem jsDateNormalize_canon (Y Mon D H Mi S : ℤ) (ms : ℚ) :
    1 ≤ (jsDateNormalize Y Mon D H Mi S ms).month ∧
    (jsDateNormalize Y Mon D H Mi S ms).month ≤ 12 ∧
    1 ≤ (jsDateNormalize Y Mon D H Mi S ms).day ∧
    (jsDateNormalize Y Mon D H Mi S ms).day ≤
      daysInMonth (jsDateNormalize Y Mon D H Mi S ms).year
        (jsDateNormalize Y Mon D H Mi S ms).month ∧
    0 ≤ (jsDateNormalize Y Mon D H Mi S ms).hour ∧
    (jsDateNormalize Y Mon D H Mi S ms).hour ≤ 23 ∧
    0 ≤ (jsDateNormalize Y Mon D H Mi S ms).minute ∧
    (jsDateNormalize Y Mon D H Mi S ms).minute ≤ 59 ∧
    0 ≤ (jsDateNormalize Y Mon D H Mi S ms).second ∧
    (jsDateNormalize Y Mon D H Mi S ms).second ≤ 59 ∧
    0 ≤ (jsDateNormalize Y Mon D H Mi S ms).millisecond ∧
    (jsDateNormalize Y Mon D H Mi S ms).millisecond ≤ 999 := by
  have h := civilFromDays_canon
    (((daysFromCivil ((if 0 ≤ Y ∧ Y ≤ 99 then Y + 1900 else Y) + Mon / 12) (Mon % 12 + 1) 1
        + D - 1) * 86400000 + (((H * 60 + Mi) * 60 + S) * 1000 + jsTruncQ ms)) / 86400000)
  simp only [jsDateNormalize]
  refine ⟨h.1, h.2.1, h.2.2.1, h.2.2.2, ?_, ?_, ?_, ?_, ?_, ?_, ?_, ?_⟩ <;> omega

example : gregToJulianDay 2000 1 1 = 2451545 := by decide

example : convertGregorianToJulian ⟨2000, 1, 1, 12, 0, 0, 0⟩ = 2451545 := by
  norm_num [convertGregorianToJulian, show gregToJulianDay 2000 1 1 = 2451545 from by decide]

/-- For years ≥ 1 (so that the code's century variable `b` is nonnegative
and its truncating `%` agrees with the flooring one), the code's Julian
day-number formula is the civil day count shifted by the epoch offset. -/
theorem gregToJulianDay_eq_daysFromCivil (y mo dy : ℤ) (hy : 1 ≤ y)
    (h1 : 1 ≤ mo) (h2 : mo ≤ 12) :
    gregToJulianDay y mo dy = daysFromCivil y mo dy + 2440588 := by
  simp only [gregToJulianDay]
  have ha : (mo - 3) / 12 = (if mo ≤ 2 then -1 else 0) := by split_ifs <;> omega
  have hb : y + (mo - 3) / 12 = y - (if mo ≤ 2 then 1 else 0) := by split_ifs <;> omega
  have hbnn : 0 ≤ y + (mo - 3) / 12 := by split_ifs at hb <;> omega
  rw [hb] at hbnn ⊢
  have htm : Int.tmod (y - (if mo ≤ 2 then 1 else 0)) 100 =
      (y - (if mo ≤ 2 then 1 else 0)) % 100 :=
    Int.tmod_eq_emod hbnn (by norm_num)
  rw [htm, daysFromCivil_split]
  have he : mo - 12 * ((mo - 3) / 12) - 3 = (mo + 9) % 12 := by omega
  rw [he]
  -- year-part identity between the century/rest split and the 400-year split
  generalize hB : y - (if mo ≤ 2 then 1 else 0) = b at *
  have e1 : 146097 * (b / 100) / 4 = 36524 * (b / 100) + b / 100 / 4 := by omega
  have e2 : 36525 * (b % 100) / 100 = 365 * (b % 100) + b % 100 / 4 := by omega
  have e3 : b / 100 / 4 = b / 400 := by omega
  have e4 : b % 400 = 100 * (b / 100 % 4) + b % 100 := by omega
  have e5 : b % 400 / 4 = 25 * (b / 100 % 4) + b % 100 / 4 := by omega
  have e6 : b % 400 / 100 = b / 100 % 4 := by omega
  omega

/-- Integer core of the Julian-to-Gregorian chain: applied to the integer
`F = ⌊4 (jd - 1721120) + 3⌋`, the decoded triple `(Y, M, D)` satisfies a
closed-form day equation.  The day produced is `⌊F/4⌋ - 719468`, one day
less when `F mod 4` is below `(F div 146097) mod 4` — the era-alignment
defect of the chain that the round-trip analysis of C1 hinges on. -/
theorem decodeDay_spec (F g n1 i j k l Y M D : ℤ) (hF : 0 ≤ F)
    (hg : g = F / 146097)
    (hn1 : n1 = F % 146097 / 4)
    (hi : i = (100 * n1 + 99) / 36525)
    (hj : j = 5 * (Int.tmod (100 * n1 + 99) 36525 / 100) + 2)
    (hk : k = j / 153)
    (hl : l = (k + 2) / 12)
    (hY : Y = 100 * g + i + l)
    (hM : M = k - 12 * l + 3)
    (hD : D = Int.tmod j 153 / 5) :
    daysFromCivil Y M (D + 1) =
      F / 4 - 719468 - (if F % 4 < F / 146097 % 4 then 1 else 0) ∧
    1 ≤ M ∧ M ≤ 12 ∧ 0 ≤ D ∧ D ≤ 30 := by
  have hn1b : 0 ≤ n1 ∧ n1 ≤ 36524 := by omega
  have htm1 : Int.tmod (100 * n1 + 99) 36525 = (100 * n1 + 99) % 36525 :=
    Int.tmod_eq_emod (by omega) (by norm_num)
  rw [htm1] at hj
  have hjnn : 0 ≤ j := by omega
  have htm2 : Int.tmod j 153 = j % 153 := Int.tmod_eq_emod hjnn (by norm_num)
  rw [htm2] at hD
  -- the within-century inverse identity (the `100 n + 99` trick)
  have hkey : 365 * i + i / 4 + (100 * n1 + 99) % 36525 / 100 = n1 ∧
      0 ≤ i ∧ i ≤ 99 ∧ 0 ≤ (100 * n1 + 99) % 36525 / 100 ∧
      (100 * n1 + 99) % 36525 / 100 ≤ 365 := by omega
  -- month-level bookkeeping
  have hkb : 0 ≤ k ∧ k ≤ 11 := by omega
  have hlv : l = (if M ≤ 2 then 1 else 0) := by split_ifs <;> omega
  have hMr : 1 ≤ M ∧ M ≤ 12 := by omega
  have hMk : (M + 9) % 12 = k := by omega
  have hDr : 0 ≤ D ∧ D ≤ 30 := by omega
  have hDone : (153 * k + 2) / 5 + D = (100 * n1 + 99) % 36525 / 100 := by omega
  -- era decomposition of g
  have hYI : Y - (if M ≤ 2 then 1 else 0) = 400 * (g / 4) + (100 * (g % 4) + i) := by
    rw [← hlv]; omega
  have hgb : 0 ≤ g ∧ 0 ≤ g % 4 ∧ g % 4 ≤ 3 := by omega
  have h400a : (400 * (g / 4) + (100 * (g % 4) + i)) / 400 = g / 4 := by omega
  have h400b : (400 * (g / 4) + (100 * (g % 4) + i)) % 400 = 100 * (g % 4) + i := by omega
  have h4 : (100 * (g % 4) + i) / 4 = 25 * (g % 4) + i / 4 := by omega
  have h100 : (100 * (g % 4) + i) / 100 = g % 4 := by omega
  refine ⟨?_, hMr.1, hMr.2, hDr.1, hDr.2⟩
  rw [daysFromCivil_split, hYI, h400a, h400b, h4, h100, hMk]
  -- the day equation, after all divisions are pinned
  have hs : F = 146097 * g + (4 * n1 + F % 146097 % 4) := by omega
  have hsr : 0 ≤ F % 146097 % 4 ∧ F % 146097 % 4 ≤ 3 := by omega
  have hF4 : F / 4 = 146097 * (g / 4) + 36524 * (g % 4) + n1 +
      (g % 4 + F % 146097 % 4) / 4 := by omega
  have hFm4 : F % 4 = (g % 4 + F % 146097 % 4) % 4 := by omega
  have hdelta : (g % 4 + F % 146097 % 4) / 4 -
      (if (g % 4 + F % 146097 % 4) % 4 < g % 4 then 1 else 0) = 0 := by
    split_ifs <;> omega
  split_ifs at hdelta ⊢ <;> omega

/-! ## Rational floor helpers -/

theorem floorQ_intCast_add (n : ℤ) (x : ℚ) (h0 : 0 ≤ x) (h1 : x < 1) :
    ⌊(n : ℚ) + x⌋ = n := by
  rw [Int.floor_eq_iff]
  constructor
  · linarith
  · linarith

theorem floorQ_div_int (x : ℚ) (q : ℤ) (hq : 0 < q) : ⌊x / (q : ℚ)⌋ = ⌊x⌋ / q := by
  have hde := Int.ediv_add_emod ⌊x⌋ q
  have hr0 : 0 ≤ ⌊x⌋ % q := Int.emod_nonneg _ (by omega)
  have hr1 : ⌊x⌋ % q < q := Int.emod_lt_of_pos _ hq
  have hqQ : (0 : ℚ) < (q : ℚ) := by exact_mod_cast hq
  rw [Int.floor_eq_iff]
  constructor
  · rw [le_div_iff₀ hqQ]
    have h1 : ((q * (⌊x⌋ / q) : ℤ) : ℚ) ≤ (⌊x⌋ : ℚ) := by
      have : q * (⌊x⌋ / q) ≤ ⌊x⌋ := by omega
      exact_mod_cast this
    have h2 : (⌊x⌋ : ℚ) ≤ x := Int.floor_le x
    push_cast at h1 ⊢
    nlinarith
  · rw [div_lt_iff₀ hqQ]
    have h1 : x < (⌊x⌋ : ℚ) + 1 := Int.lt_floor_add_one x
    have h2 : ⌊x⌋ + 1 ≤ q * (⌊x⌋ / q) + q := by omega
    have h2Q : ((⌊x⌋ : ℚ) + 1) ≤ ((q * (⌊x⌋ / q) + q : ℤ) : ℚ) := by exact_mod_cast h2
    push_cast at h2Q ⊢
    nlinarith

theorem floorQ_intCast_div (n q : ℤ) (hq : 0 < q) : ⌊(n : ℚ) / (q : ℚ)⌋ = n / q := by
  rw [floorQ_div_int _ _ hq, Int.floor_intCast]

theorem jsTruncQ_of_nonneg (x : ℚ) (h : 0 ≤ x) : jsTruncQ x = ⌊x⌋ := if_pos h

theorem jsModQ_eval (a b : ℚ) (ha : 0 ≤ a) (hb : 0 < b) :
    jsModQ a b = a - b * ⌊a / b⌋ := by
  rw [jsModQ, jsTruncQ_of_nonneg _ (div_nonneg ha hb.le)]

/-- `jsModQ` of scaled day fractions: the JS expression `t % (a/86400000)`
for `t = C/86400000` with `C ≥ 0` is `(C mod a)/86400000`. -/
theorem jsModQ_time (C a : ℤ) (hC : 0 ≤ C) (ha : 0 < a) :
    jsModQ ((C : ℚ) / 86400000) ((a : ℚ) / 86400000) = ((C % a : ℤ) : ℚ) / 86400000 := by
  have h86 : (0:ℚ) < 86400000 := by norm_num
  have haQ : (0:ℚ) < (a:ℚ) := by exact_mod_cast ha
  have hCQ : (0:ℚ) ≤ (C:ℚ) := by exact_mod_cast hC
  have hdiv : ((C:ℚ)/86400000) / ((a:ℚ)/86400000) = (C:ℚ)/(a:ℚ) := by
    field_simp
  rw [jsModQ_eval _ _ (div_nonneg hCQ h86.le) (div_pos haQ h86), hdiv,
    floorQ_intCast_div _ _ ha]
  have hde : a * (C / a) + C % a = C := Int.ediv_add_emod C a
  have hdeQ : ((a * (C / a) + C % a : ℤ) : ℚ) = (C:ℚ) := by
    exact_mod_cast congrArg (fun x : ℤ => (x : ℚ)) hde
  push_cast at hdeQ ⊢
  field_simp
  linarith

/-- Scaled-fraction floor division: `⌊(C/86400000) / (b/86400000)⌋ = C div b`. -/
theorem floorQ_time_div (C b : ℤ) (hb : 0 < b) :
    ⌊((C : ℚ) / 86400000) / ((b : ℚ) / 86400000)⌋ = C / b := by
  have hbQ : ((b:ℚ)) ≠ 0 := by exact_mod_cast hb.ne'
  have hdiv : ((C:ℚ)/86400000) / ((b:ℚ)/86400000) = (C:ℚ)/(b:ℚ) := by
    field_simp
  rw [hdiv, floorQ_intCast_div _ _ hb]

/-- Decomposition of `convertJulianToGregorian` on `jd = Z + (B-43200000)/86400000`
(`Z` the noon Julian day number, `B` the milliseconds since midnight):
the rational chain reduces to the integer chain on
`F = 4 (Z - 1721120) + 3 + (B - 43200000) div 21600000`, and the decoded
time of day is `C = B ± 43200000` milliseconds read from noon. -/
theorem convertJulianToGregorian_decomp (Z B : ℤ)
    (hZ : 1721121 ≤ Z) (hB0 : 0 ≤ B) (hB1 : B < 86400000) :
    ∃ F C g n1 i j k l Y M D,
      F = 4 * (Z - 1721120) + 3 + (B - 43200000) / 21600000 ∧
      C = (if B < 43200000 then B + 43200000 else B - 43200000) ∧
      g = F / 146097 ∧
      n1 = F % 146097 / 4 ∧
      i = (100 * n1 + 99) / 36525 ∧
      j = 5 * (Int.tmod (100 * n1 + 99) 36525 / 100) + 2 ∧
      k = j / 153 ∧
      l = (k + 2) / 12 ∧
      Y = 100 * g + i + l ∧
      M = k - 12 * l + 3 ∧
      D = Int.tmod j 153 / 5 ∧
      convertJulianToGregorian ((Z : ℚ) + ((B : ℚ) - 43200000) / 86400000) =
        jsDateNormalize Y (M - 1)
          (D + (if 12 ≤ C / 3600000 + 12 ∧ C / 3600000 + 12 < 18 then 1 else 0))
          (C / 3600000 + 12) (C % 3600000 / 60000) (C % 60000 / 1000)
          ((C % 1000 : ℤ) : ℚ) := by
  refine ⟨_, _, _, _, _, _, _, _, _, _, _, rfl, rfl, rfl, rfl, rfl, rfl, rfl, rfl, rfl,
    rfl, rfl, ?_⟩
  simp only [convertJulianToGregorian]
  have hrde : 21600000 * ((B - 43200000) / 21600000) + (B - 43200000) % 21600000
      = B - 43200000 := Int.ediv_add_emod _ _
  have hr0 : 0 ≤ (B - 43200000) % 21600000 := Int.emod_nonneg _ (by norm_num)
  have hr1 : (B - 43200000) % 21600000 < 21600000 :=
    Int.emod_lt_of_pos _ (by norm_num)
  have hphi0 : (0:ℚ) ≤ ((B - 43200000) % 21600000 : ℤ) / 21600000 := by
    have : (0:ℚ) ≤ (((B - 43200000) % 21600000 : ℤ) : ℚ) := by exact_mod_cast hr0
    positivity
  have hphi1 : (((B - 43200000) % 21600000 : ℤ) : ℚ) / 21600000 < 1 := by
    rw [div_lt_one (by norm_num)]
    exact_mod_cast hr1
  -- the fractional f splits into the integer F plus a fraction below 1
  have hf : 4 * ((Z : ℚ) + ((B : ℚ) - 43200000) / 86400000 - 1721120) + 3 =
      ((4 * (Z - 1721120) + 3 + (B - 43200000) / 21600000 : ℤ) : ℚ) +
        (((B - 43200000) % 21600000 : ℤ) : ℚ) / 21600000 := by
    have hc : ((21600000 * ((B - 43200000) / 21600000) + (B - 43200000) % 21600000 : ℤ) : ℚ)
        = ((B : ℚ) - 43200000) := by exact_mod_cast congrArg (fun x : ℤ => (x : ℚ)) hrde
    push_cast at hc ⊢
    linarith
  rw [hf]
  have hFnn : 0 ≤ 4 * (Z - 1721120) + 3 + (B - 43200000) / 21600000 := by omega
  have hg : ⌊(((4 * (Z - 1721120) + 3 + (B - 43200000) / 21600000 : ℤ) : ℚ) +
      (((B - 43200000) % 21600000 : ℤ) : ℚ) / 21600000) / 146097⌋ =
      (4 * (Z - 1721120) + 3 + (B - 43200000) / 21600000) / 146097 := by
    have h1 : (146097 : ℚ) = ((146097 : ℤ) : ℚ) := by norm_num
    rw [h1, floorQ_div_int _ _ (by norm_num), floorQ_intCast_add _ _ hphi0 hphi1]
  rw [hg]
  have hfqnn : (0:ℚ) ≤ ((4 * (Z - 1721120) + 3 + (B - 43200000) / 21600000 : ℤ) : ℚ) +
      (((B - 43200000) % 21600000 : ℤ) : ℚ) / 21600000 := by
    have : (0:ℚ) ≤ ((4 * (Z - 1721120) + 3 + (B - 43200000) / 21600000 : ℤ) : ℚ) := by
      exact_mod_cast hFnn
    linarith
  have hfm : jsModQ (((4 * (Z - 1721120) + 3 + (B - 43200000) / 21600000 : ℤ) : ℚ) +
      (((B - 43200000) % 21600000 : ℤ) : ℚ) / 21600000) 146097 =
      (((4 * (Z - 1721120) + 3 + (B - 43200000) / 21600000) % 146097 : ℤ) : ℚ) +
        (((B - 43200000) % 21600000 : ℤ) : ℚ) / 21600000 := by
    rw [jsModQ_eval _ _ hfqnn (by norm_num)]
    have h1 : (146097 : ℚ) = ((146097 : ℤ) : ℚ) := by norm_num
    rw [h1, floorQ_div_int _ _ (by norm_num), floorQ_intCast_add _ _ hphi0 hphi1]
    have hde : 146097 * ((4 * (Z - 1721120) + 3 + (B - 43200000) / 21600000) / 146097) +
        (4 * (Z - 1721120) + 3 + (B - 43200000) / 21600000) % 146097 =
        4 * (Z - 1721120) + 3 + (B - 43200000) / 21600000 := Int.ediv_add_emod _ _
    have hdeQ : ((146097 * ((4 * (Z - 1721120) + 3 + (B - 43200000) / 21600000) / 146097) +
        (4 * (Z - 1721120) + 3 + (B - 43200000) / 21600000) % 146097 : ℤ) : ℚ) =
        ((4 * (Z - 1721120) + 3 + (B - 43200000) / 21600000 : ℤ) : ℚ) := by
      exact_mod_cast congrArg (fun x : ℤ => (x : ℚ)) hde
    push_cast at hdeQ ⊢
    linarith
  rw [hfm]
  have hn1 : ⌊((((4 * (Z - 1721120) + 3 + (B - 43200000) / 21600000) % 146097 : ℤ) : ℚ) +
      (((B - 43200000) % 21600000 : ℤ) : ℚ) / 21600000) / 4⌋ =
      (4 * (Z - 1721120) + 3 + (B - 43200000) / 21600000) % 146097 / 4 := by
    have h1 : (4 : ℚ) = ((4 : ℤ) : ℚ) := by norm_num
    rw [h1, floorQ_div_int _ _ (by norm_num), floorQ_intCast_add _ _ hphi0 hphi1]
  rw [hn1]
  -- the time-of-day chain
  have hjdnn : (0:ℚ) ≤ (Z : ℚ) + ((B : ℚ) - 43200000) / 86400000 := by
    have hZQ : (1721121 : ℚ) ≤ (Z : ℚ) := by exact_mod_cast hZ
    have hBQ : (0:ℚ) ≤ (B:ℚ) := by exact_mod_cast hB0
    have : ((B : ℚ) - 43200000) / 86400000 ≥ -1 := by
      rw [ge_iff_le, le_div_iff₀ (by norm_num : (0:ℚ) < 86400000)]
      linarith
    linarith
  have ht : jsModQ ((Z : ℚ) + ((B : ℚ) - 43200000) / 86400000) 1 =
      (((if B < 43200000 then B + 43200000 else B - 43200000) : ℤ) : ℚ) / 86400000 := by
    rw [jsModQ_eval _ _ hjdnn (by norm_num), div_one]
    split_ifs with hBlt
    · have hfl : ⌊(Z : ℚ) + ((B : ℚ) - 43200000) / 86400000⌋ = Z - 1 := by
        have : (Z : ℚ) + ((B : ℚ) - 43200000) / 86400000 =
            ((Z - 1 : ℤ) : ℚ) + ((B + 43200000 : ℤ) : ℚ) / 86400000 := by
          push_cast; ring
        rw [this, floorQ_intCast_add]
        · have hBQ : (0:ℚ) ≤ ((B + 43200000 : ℤ) : ℚ) := by
            have : (0:ℤ) ≤ B + 43200000 := by omega
            exact_mod_cast this
          exact div_nonneg hBQ (by norm_num)
        · rw [div_lt_one (by norm_num)]
          have : (B : ℚ) < 43200000 := by exact_mod_cast hBlt
          push_cast
          linarith
      rw [hfl]
      push_cast
      ring
    · have hfl : ⌊(Z : ℚ) + ((B : ℚ) - 43200000) / 86400000⌋ = Z := by
        rw [floorQ_intCast_add]
        · have h43 : (43200000 : ℚ) ≤ (B : ℚ) := by exact_mod_cast not_lt.mp hBlt
          have h0 : (0:ℚ) ≤ (B : ℚ) - 43200000 := by linarith
          exact div_nonneg h0 (by norm_num)
        · rw [div_lt_one (by norm_num)]
          have : (B : ℚ) < 86400000 := by exact_mod_cast hB1
          linarith
      rw [hfl]
      push_cast
      ring
  rw [ht]
  generalize hCdef : (if B < 43200000 then B + 43200000 else B - 43200000 : ℤ) = C
  have hCb : 0 ≤ C ∧ C < 86400000 := by split_ifs at hCdef <;> omega
  have h24 : (1 / 24 : ℚ) = ((3600000 : ℤ) : ℚ) / 86400000 := by norm_num
  have h1440 : (1 / 1440 : ℚ) = ((60000 : ℤ) : ℚ) / 86400000 := by norm_num
  have h86400 : (1 / 86400 : ℚ) = ((1000 : ℤ) : ℚ) / 86400000 := by norm_num
  have h864e5 : (1 / 86400000 : ℚ) = ((1 : ℤ) : ℚ) / 86400000 := by norm_num
  rw [h24, h1440, h86400, h864e5,
    jsModQ_time C 3600000 hCb.1 (by norm_num),
    jsModQ_time C 60000 hCb.1 (by norm_num),
    jsModQ_time C 1000 hCb.1 (by norm_num),
    floorQ_time_div C 3600000 (by norm_num),
    floorQ_time_div (C % 3600000) 60000 (by norm_num),
    floorQ_time_div (C % 60000) 1000 (by norm_num),
    floorQ_time_div (C % 1000) 1 (by norm_num), Int.ediv_one]

theorem jsTruncQ_intCast (n : ℤ) : jsTruncQ ((n : ℤ) : ℚ) = n := by
  unfold jsTruncQ
  split_ifs <;> simp

/-- `convertGregorianToJulian` as noon day-number plus time-from-noon. -/
theorem convertGregorianToJulian_form (g : GDate) :
    convertGregorianToJulian g =
      ((gregToJulianDay g.year g.month g.day : ℤ) : ℚ) +
        (((((g.hour * 60 + g.minute) * 60 + g.second) * 1000 + g.millisecond : ℤ) : ℚ)
          - 43200000) / 86400000 := by
  simp only [convertGregorianToJulian]
  push_cast
  ring

/-- Every date with year ≥ 100 is on or after 0100-01-01. -/
theorem daysFromCivil_ge (y mo dy : ℤ) (hy : 100 ≤ y) (h1 : 1 ≤ mo) (h2 : mo ≤ 12)
    (hd : 1 ≤ dy) : -683003 ≤ daysFromCivil y mo dy := by
  rw [daysFromCivil_split]
  interval_cases mo <;> split_ifs <;> omega

/-- A canonical-format date on or after 0099-12-31 + 1 has year ≥ 100. -/
theorem year_ge_of_daysFromCivil (Y M D1 : ℤ) (hM1 : 1 ≤ M) (hM2 : M ≤ 12)
    (hD1 : 1 ≤ D1) (hD2 : D1 ≤ 31) (hn : -683003 ≤ daysFromCivil Y M D1) : 100 ≤ Y := by
  rw [daysFromCivil_split] at hn
  by_contra hcon
  interval_cases M <;> split_ifs at hn <;> omega

/-- C1 (amended): round trip through the code's converters, on the
exact-arithmetic model: for dates with year ≥ 100, the round trip
reproduces the instant exactly (hence within ±1 second) whenever the time
of day is in [12:00, 18:00), and for every time of day whenever the date
lies between 2000-03-01 and 2100-02-28 (noon Julian day numbers 2451605
to 2488128, the era in which `⌊(4(JDN-1721120)+3)/146097⌋ ≡ 0 (mod 4)`).
Outside these cases the round trip is off by a full day (see the
counterexample), so the claim's "every hour of the day, ±1 second" does
not hold as stated. -/
theorem roundtrip_instant_exact (g : GDate)
    (hy : 100 ≤ g.year) (hmo1 : 1 ≤ g.month) (hmo2 : g.month ≤ 12)
    (hd1 : 1 ≤ g.day) (hd2 : g.day ≤ 31)
    (hh1 : 0 ≤ g.hour) (hh2 : g.hour ≤ 23)
    (hmi1 : 0 ≤ g.minute) (hmi2 : g.minute ≤ 59)
    (hs1 : 0 ≤ g.second) (hs2 : g.second ≤ 59)
    (hms1 : 0 ≤ g.millisecond) (hms2 : g.millisecond ≤ 999)
    (hcase : (12 ≤ g.hour ∧ g.hour < 18) ∨
      (2451605 ≤ gregToJulianDay g.year g.month g.day ∧
        gregToJulianDay g.year g.month g.day ≤ 2488128)) :
    dateInstantMs (convertJulianToGregorian (convertGregorianToJulian g)) =
      dateInstantMs g := by
  have hZeq := gregToJulianDay_eq_daysFromCivil g.year g.month g.day (by omega) hmo1 hmo2
  have hdge := daysFromCivil_ge g.year g.month g.day hy hmo1 hmo2 hd1
  have hZbig : 1721121 ≤ gregToJulianDay g.year g.month g.day := by omega
  have hB0 : 0 ≤ ((g.hour * 60 + g.minute) * 60 + g.second) * 1000 + g.millisecond := by
    omega
  have hB1 : ((g.hour * 60 + g.minute) * 60 + g.second) * 1000 + g.millisecond
      < 86400000 := by omega
  rw [convertGregorianToJulian_form]
  obtain ⟨F, C, gg, n1, i, j, k, l, Y, M, D, hF, hC, hgg, hn1, hi, hj, hk, hl, hY, hM,
      hD, heq⟩ := convertJulianToGregorian_decomp (gregToJulianDay g.year g.month g.day)
    (((g.hour * 60 + g.minute) * 60 + g.second) * 1000 + g.millisecond) hZbig hB0 hB1
  rw [heq, dateInstantMs_jsDateNormalize]
  obtain ⟨hdays, hM1, hM2, hD0, hD30⟩ :=
    decodeDay_spec F gg n1 i j k l Y M D (by omega) hgg hn1 hi hj hk hl hY hM hD
  have hCd : (((g.hour * 60 + g.minute) * 60 + g.second) * 1000 + g.millisecond
        < 43200000 ∧
        C = ((g.hour * 60 + g.minute) * 60 + g.second) * 1000 + g.millisecond
          + 43200000) ∨
      (43200000 ≤ ((g.hour * 60 + g.minute) * 60 + g.second) * 1000 + g.millisecond ∧
        C = ((g.hour * 60 + g.minute) * 60 + g.second) * 1000 + g.millisecond
          - 43200000) := by
    split_ifs at hC <;> omega
  have hn : -683003 ≤ daysFromCivil Y M (D + 1) := by
    rw [hdays]
    rcases hcase with hA | hB2
    · have hr : (((g.hour * 60 + g.minute) * 60 + g.second) * 1000 + g.millisecond
          - 43200000) / 21600000 = 0 := by omega
      split_ifs <;> omega
    · split_ifs <;> omega
  have hY100 : 100 ≤ Y := year_ge_of_daysFromCivil Y M (D + 1) hM1 hM2 (by omega)
    (by omega) hn
  have hquirk : (if 0 ≤ Y ∧ Y ≤ 99 then Y + 1900 else Y) = Y := by
    rw [if_neg]; omega
  rw [hquirk]
  have hmon0 : (M - 1) / 12 = 0 := by omega
  have hmon1 : (M - 1) % 12 = M - 1 := by omega
  rw [hmon0, hmon1]
  have hYadd : Y + 0 = Y := by ring
  have hMadd : M - 1 + 1 = M := by ring
  rw [hYadd, hMadd]
  have hday1 : daysFromCivil Y M 1 = daysFromCivil Y M (D + 1) - D := by
    have h := daysFromCivil_day Y M (D + 1)
    omega
  rw [hday1, hdays, jsTruncQ_intCast]
  simp only [dateInstantMs]
  rcases hcase with hA | hB2
  · -- afternoon hours: F ≡ 3 (mod 4), no era defect
    have hr : (((g.hour * 60 + g.minute) * 60 + g.second) * 1000 + g.millisecond
        - 43200000) / 21600000 = 0 := by omega
    have hm4 : F % 4 = 3 := by omega
    split_ifs <;> omega
  · -- the 2000-03-01 … 2100-02-28 era: g ≡ 0 (mod 4)
    have hFb : 2921940 ≤ F ∧ F ≤ 3068036 := by omega
    have hp20 : F / 146097 = 20 := by omega
    have hm40 : F / 146097 % 4 = 0 := by omega
    split_ifs <;> omega

/-- C1 counterexample: 2000-01-01 00:00:00.000 — a valid CalendarDate —
comes back one full day early (1999-12-31 00:00) from the round trip,
far outside the ±1 second tolerance. -/
theorem roundtrip_fails_at_2000_01_01 :
    ¬ ((dateInstantMs (convertJulianToGregorian
          (convertGregorianToJulian ⟨2000, 1, 1, 0, 0, 0, 0⟩)) -
        dateInstantMs ⟨2000, 1, 1, 0, 0, 0, 0⟩).natAbs ≤ 1000) := by
  have h1 : convertGregorianToJulian ⟨2000, 1, 1, 0, 0, 0, 0⟩ =
      ((2451545 : ℤ) : ℚ) + (((0 : ℤ) : ℚ) - 43200000) / 86400000 := by
    rw [convertGregorianToJulian_form]
    norm_num [show gregToJulianDay 2000 1 1 = 2451545 from by decide]
  obtain ⟨F, C, gg, n1, i, j, k, l, Y, M, D, hF, hC, hgg, hn1, hi, hj, hk, hl, hY, hM,
      hD, heq⟩ := convertJulianToGregorian_decomp 2451545 0 (by norm_num) (by norm_num)
    (by norm_num)
  rw [h1, heq, dateInstantMs_jsDateNormalize, jsTruncQ_intCast]
  subst hF hC hgg hn1 hi hj hk hl hY hM hD
  decide

/-- C2 (amended): after any `updateDateTime` of atmosphere.js, the stored
date is canonical: the month is 1..12 and the day never exceeds the length
of the stored month.  The claim describes the legacy day-night.js
`updateDateTime` (fixed-width carries, no month carry); the operative
atmosphere.js version builds a JS `Date`, which performs full calendar
normalization, so the day field can never overflow the month. -/
theorem updateDateTime_day_in_month (g : GDate) (ur ts : ℚ) :
    1 ≤ (updateDateTime g ur ts).month ∧ (updateDateTime g ur ts).month ≤ 12 ∧
    1 ≤ (updateDateTime g ur ts).day ∧
    (updateDateTime g ur ts).day ≤
      daysInMonth (updateDateTime g ur ts).year (updateDateTime g ur ts).month := by
  unfold updateDateTime
  have h := jsDateNormalize_canon g.year (g.month - 1) g.day g.hour g.minute g.second
    ((g.millisecond : ℚ) + ur * ts * 1000)
  exact ⟨h.1, h.2.1, h.2.2.1, h.2.2.2.1⟩

/-- C2 counterexample: advancing 2020-01-31 12:00 by exactly one simulated
day (`update_rate = 60`, `timescale = 1440`) rolls the stored date into
February — the month field changes from 1 to 2, so a month carry does
happen, contradicting "never carries days into months". -/
theorem updateDateTime_month_carry :
    (updateDateTime ⟨2020, 1, 31, 12, 0, 0, 0⟩ 60 1440).month = 2 ∧
    (updateDateTime ⟨2020, 1, 31, 12, 0, 0, 0⟩ 60 1440).day = 1 ∧
    (updateDateTime ⟨2020, 1, 31, 12, 0, 0, 0⟩ 60 1440).year = 2020 := by
  unfold updateDateTime
  dsimp only
  rw [show ((0 : ℤ) : ℚ) + (60 : ℚ) * 1440 * 1000 = ((86400000 : ℤ) : ℚ) by norm_num]
  simp only [jsDateNormalize, jsTruncQ_intCast]
  decide

/-- C9 (amended): with `timescale = 0` the added offset is zero, so each
call stores the `Date` normalization of the current fields; any starting
date that is a fixed point of that normalization (every date the plugin
itself can hold, since it always stores normalized dates) is unchanged in
all seven fields over any number of repeated calls.  The fixed-point
hypothesis cannot be dropped: see the year-50 counterexample. -/
theorem updateDateTime_timescale_zero_fixed (g : GDate) (ur : ℚ) (n : ℕ)
    (hfix : jsDateNormalize g.year (g.month - 1) g.day g.hour g.minute g.second
      (g.millisecond : ℚ) = g) :
    (fun st => updateDateTime st ur 0)^[n] g = g := by
  induction n with
  | zero => rfl
  | succ n ih =>
      rw [Function.iterate_succ_apply]
      have hstep : updateDateTime g ur 0 = g := by
        unfold updateDateTime
        rw [show (g.millisecond : ℚ) + ur * 0 * 1000 = (g.millisecond : ℚ) by ring]
        exact hfix
      rw [hstep, ih]

/-- Witness input for the timescale-zero theorem: 2020-01-31 12:00 is a
fixed point of normalization and indeed never changes over 5 calls. -/
theorem updateDateTime_timescale_zero_witness :
    (jsDateNormalize (2020:ℤ) ((1:ℤ) - 1) 31 12 0 0 (((0:ℤ) : ℚ))
        = (⟨2020, 1, 31, 12, 0, 0, 0⟩ : GDate)) ∧
    (fun st => updateDateTime st 60 0)^[5] ⟨2020, 1, 31, 12, 0, 0, 0⟩ =
      ⟨2020, 1, 31, 12, 0, 0, 0⟩ := by
  have hfix : jsDateNormalize (2020:ℤ) ((1:ℤ) - 1) 31 12 0 0 (((0:ℤ) : ℚ))
      = (⟨2020, 1, 31, 12, 0, 0, 0⟩ : GDate) := by
    simp only [jsDateNormalize, jsTruncQ_intCast]
    decide
  exact ⟨hfix, updateDateTime_timescale_zero_fixed ⟨2020, 1, 31, 12, 0, 0, 0⟩ 60 5 hfix⟩

/-- C9 counterexample: starting from year 50 (a valid `CalendarDate`), a
timescale-zero update changes the stored year to 1950 — the JS `Date`
constructor maps two-digit years into 1900-1999 — so "for every starting
date" fails. -/
theorem updateDateTime_timescale_zero_fails_year_50 :
    updateDateTime ⟨50, 1, 1, 0, 0, 0, 0⟩ 60 0 ≠ ⟨50, 1, 1, 0, 0, 0, 0⟩ ∧
    (updateDateTime ⟨50, 1, 1, 0, 0, 0, 0⟩ 60 0).year = 1950 := by
  unfold updateDateTime
  dsimp only
  rw [show ((0 : ℤ) : ℚ) + (60 : ℚ) * 0 * 1000 = ((0 : ℤ) : ℚ) by norm_num]
  simp only [jsDateNormalize, jsTruncQ_intCast]
  decide

/-! ## Evaluation lemmas for the JavaScript number model -/


theorem jadd_some (a b : ℝ) : jadd (some a) (some b) = some (a + b) := rfl

theorem jsub_some (a b : ℝ) : jsub (some a) (some b) = some (a - b) := rfl

theorem jmul_some (a b : ℝ) : jmul (some a) (some b) = some (a * b) := rfl

theorem jsinN_some (a : ℝ) : jsinN (some a) = some (Real.sin a) := rfl

theorem jcosN_some (a : ℝ) : jcosN (some a) = some (Real.cos a) := rfl

theorem jroundN_some (a : ℝ) : jroundN (some a) = some ((⌊a + 1/2⌋ : ℤ) : ℝ) := rfl

theorem jdiv_some (a b : ℝ) (h : b ≠ 0) : jdiv (some a) (some b) = some (a / b) := if_neg h

theorem jmodN_some (a b : ℝ) (h : b ≠ 0) :
    jmodN (some a) (some b) = some (jsModR a b) := if_neg h

theorem jasinN_some (a : ℝ) (h1 : -1 ≤ a) (h2 : a ≤ 1) :
    jasinN (some a) = some (Real.arcsin a) := if_pos ⟨h1, h2⟩

theorem jacosN_some (a : ℝ) (h1 : -1 ≤ a) (h2 : a ≤ 1) :
    jacosN (some a) = some (Real.arccos a) := if_pos ⟨h1, h2⟩

theorem jacosN_none_of_not_mem (a : ℝ) (h : a < -1 ∨ 1 < a) : jacosN (some a) = none := by
  refine if_neg ?_
  rcases h with h | h <;> intro hc <;> rcases hc with ⟨h1, h2⟩ <;> linarith

theorem toRadiansN_some (x : ℝ) : toRadiansN (some x) = some (x * Real.pi / 180) := by
  show (if (180 : ℝ) = 0 then none else some (x * Real.pi / 180)) = _
  rw [if_neg (by norm_num : (180 : ℝ) ≠ 0)]

theorem toDegreesN_some (x : ℝ) : toDegreesN (some x) = some (x * 180 / Real.pi) := by
  show (if Real.pi = 0 then none else some (x * 180 / Real.pi)) = _
  rw [if_neg Real.pi_ne_zero]

theorem jadd_none_left (b : JSNum) : jadd none b = none := rfl

theorem jadd_none_right (a : JSNum) : jadd a none = none := by cases a <;> rfl

theorem jsub_none_left (b : JSNum) : jsub none b = none := rfl

theorem jsub_none_right (a : JSNum) : jsub a none = none := by cases a <;> rfl

theorem jmul_none_left (b : JSNum) : jmul none b = none := rfl

theorem jmul_none_right (a : JSNum) : jmul a none = none := by cases a <;> rfl

theorem jdiv_none_left (b : JSNum) : jdiv none b = none := rfl

theorem jdiv_none_right (a : JSNum) : jdiv a none = none := by cases a <;> rfl

theorem jsinN_none : jsinN none = none := rfl

theorem jacosN_none : jacosN none = none := rfl

theorem toDegreesN_none : toDegreesN none = none := rfl

theorem toRadiansN_none : toRadiansN none = none := rfl

theorem jltP_none_left (b : JSNum) : ¬ jltP none b := by cases b <;> exact fun h => h

theorem jltP_none_right (a : JSNum) : ¬ jltP a none := by cases a <;> exact fun h => h

theorem jltP_some_iff (a b : ℝ) : jltP (some a) (some b) ↔ a < b := Iff.rfl

theorem jleP_some_iff (a b : ℝ) : jleP (some a) (some b) ↔ a ≤ b := Iff.rfl

theorem julianCycleJ_eq (jd lng : ℝ) : julianCycleJ jd lng = some (julianCycleR jd lng) := rfl

theorem solarNoonJ_eq (jd lng : ℝ) : solarNoonJ jd lng = some (solarNoonR jd lng) := rfl

theorem solarMeanAnomalyJ_eq (jd lng : ℝ) :
    solarMeanAnomalyJ jd lng = some (solarMeanAnomalyR jd lng) := by
  show jmodN (some (357.5291 + 0.98560028 * (solarNoonR jd lng - 2451545))) (some 360) = _
  exact jmodN_some _ _ (by norm_num)

theorem equationOfCenterJ_eq (jd lng : ℝ) :
    equationOfCenterJ jd lng = some (equationOfCenterR jd lng) := by
  simp only [equationOfCenterJ, solarMeanAnomalyJ_eq, jmul_some, toRadiansN_some,
    jsinN_some, jadd_some]
  rfl

theorem eclipticLongitudeJ_eq (jd lng : ℝ) :
    eclipticLongitudeJ jd lng = some (eclipticLongitudeR jd lng) := by
  simp only [eclipticLongitudeJ, solarMeanAnomalyJ_eq, equationOfCenterJ_eq, jadd_some]
  exact jmodN_some _ _ (by norm_num)

theorem solarTransitJ_eq (jd lng : ℝ) :
    solarTransitJ jd lng = some (solarTransitR jd lng) := by
  simp only [solarTransitJ, solarNoonJ_eq, solarMeanAnomalyJ_eq, eclipticLongitudeJ_eq,
    jmul_some, toRadiansN_some, jsinN_some, jadd_some, jsub_some]
  rfl

theorem sin_mul_sin_mem (a b : ℝ) :
    -1 ≤ Real.sin a * Real.sin b ∧ Real.sin a * Real.sin b ≤ 1 := by
  constructor <;>
    nlinarith [Real.neg_one_le_sin a, Real.sin_le_one a, Real.neg_one_le_sin b,
      Real.sin_le_one b]

theorem declinationOfSunJ_eq (jd lng : ℝ) :
    declinationOfSunJ jd lng = some (declinationOfSunR jd lng) := by
  obtain ⟨h1, h2⟩ := sin_mul_sin_mem (eclipticLongitudeR jd lng * Real.pi / 180)
    (23.45 * Real.pi / 180)
  simp only [declinationOfSunJ, eclipticLongitudeJ_eq, toRadiansN_some, jsinN_some,
    jmul_some, jasinN_some _ h1 h2, toDegreesN_some]
  rfl

theorem hourAngleAcosArg_eq (jd lat lng : ℝ) :
    hourAngleAcosArg jd lat lng =
      jdiv (some (Real.sin (-0.83 * Real.pi / 180) -
          Real.sin (lat * Real.pi / 180) *
            Real.sin (declinationOfSunR jd lng * Real.pi / 180)))
        (some (Real.cos (lat * Real.pi / 180) *
          Real.cos (declinationOfSunR jd lng * Real.pi / 180))) := by
  simp only [hourAngleAcosArg, declinationOfSunJ_eq, toRadiansN_some, jsinN_some,
    jcosN_some, jmul_some, jsub_some]

theorem sunriset_eval (jd lat lng a : ℝ) (ha : hourAngleAcosArg jd lat lng = some a)
    (h1 : -1 ≤ a) (h2 : a ≤ 1) (dur : ℝ) :
    sunsetDateJ jd lat lng dur =
      some (solarTransitR jd lng + Real.arccos a * 180 / Real.pi / 360 -
        dur / 1440 - 0.125) ∧
    sunriseDateJ jd lat lng dur =
      some (solarTransitR jd lng - Real.arccos a * 180 / Real.pi / 360 -
        dur / 1440 - 0.125) := by
  have hha : hourAngleJ jd lat lng = some (Real.arccos a * 180 / Real.pi) := by
    rw [hourAngleJ, ha, jacosN_some a h1 h2, toDegreesN_some]
  have hjha : julianHourAngleJ jd lat lng =
      some (2451545 + 0.0009 + (Real.arccos a * 180 / Real.pi - lng) / 360 +
        julianCycleR jd lng) := by
    rw [julianHourAngleJ, hha, julianCycleJ_eq, jsub_some,
      jdiv_some _ _ (by norm_num : (360 : ℝ) ≠ 0), jadd_some, jadd_some, jadd_some]
  have hss : sunsetRawJ jd lat lng =
      some (2451545 + 0.0009 + (Real.arccos a * 180 / Real.pi - lng) / 360 +
        julianCycleR jd lng +
        0.0053 * Real.sin (solarMeanAnomalyR jd lng * Real.pi / 180) -
        0.0069 * Real.sin (2 * eclipticLongitudeR jd lng * Real.pi / 180)) := by
    simp only [sunsetRawJ, hjha, solarMeanAnomalyJ_eq, eclipticLongitudeJ_eq,
      jmul_some, toRadiansN_some, jsinN_some, jadd_some, jsub_some]
  have hsr : sunriseRawJ jd lat lng =
      some (solarTransitR jd lng -
        (2451545 + 0.0009 + (Real.arccos a * 180 / Real.pi - lng) / 360 +
          julianCycleR jd lng +
          0.0053 * Real.sin (solarMeanAnomalyR jd lng * Real.pi / 180) -
          0.0069 * Real.sin (2 * eclipticLongitudeR jd lng * Real.pi / 180) -
          solarTransitR jd lng)) := by
    rw [sunriseRawJ, hss, solarTransitJ_eq, jsub_some, jsub_some]
  constructor
  · rw [sunsetDateJ, hss, jsub_some, jsub_some]
    refine congrArg some ?_
    unfold solarTransitR solarNoonR
    ring
  · rw [sunriseDateJ, hsr, jsub_some, jsub_some]
    refine congrArg some ?_
    unfold solarTransitR solarNoonR
    ring

/-- C4: for every non-polar coordinate (hour-angle `acos` argument
strictly inside `[-1, 1]`; at the boundary the day degenerates to zero or
full length and the strict inequality can fail) and every day number, the
returned `sunrise.date` is strictly below `sunset.date`. -/
theorem computeSunriset_lt_of_nonpolar (jd lat lng : ℝ) (h : NonPolarAt lat lng jd) :
    jltP (computeSunrisetDefault jd lat lng).sunrise.date
      (computeSunrisetDefault jd lat lng).sunset.date := by
  obtain ⟨a, ha, ha1, ha2⟩ := h
  obtain ⟨hset, hrise⟩ := sunriset_eval jd lat lng a ha ha1.le ha2.le 60
  show jltP (sunriseDateJ jd lat lng 60) (sunsetDateJ jd lat lng 60)
  rw [hset, hrise, jltP_some_iff]
  have hacos : 0 < Real.arccos a := Real.arccos_pos.mpr ha2
  have hpi : 0 < Real.pi := Real.pi_pos
  have : 0 < Real.arccos a * 180 / Real.pi / 360 := by positivity
  linarith

theorem dayLength_of_nonpolar (lat lng v : ℝ) (h : NonPolarAt lat lng v) :
    ∃ d, dayLengthJ lat lng v = some d ∧ 0 < d ∧ d < 1 := by
  obtain ⟨a, ha, ha1, ha2⟩ := h
  obtain ⟨hset, hrise⟩ := sunriset_eval v lat lng a ha ha1.le ha2.le 60
  have hpi : 0 < Real.pi := Real.pi_pos
  refine ⟨2 * (Real.arccos a * 180 / Real.pi / 360), ?_, ?_, ?_⟩
  · show jsub (sunsetDateJ v lat lng 60) (sunriseDateJ v lat lng 60) = _
    rw [hset, hrise, jsub_some]
    exact congrArg some (by ring)
  · have hacos : 0 < Real.arccos a := Real.arccos_pos.mpr ha2
    positivity
  · have hle := Real.arccos_le_pi a
    have hne : Real.arccos a ≠ Real.pi := fun hEq =>
      absurd (Real.arccos_eq_pi.mp hEq) (by linarith)
    have hacos : Real.arccos a < Real.pi := lt_of_le_of_ne hle hne
    have heq : 2 * (Real.arccos a * 180 / Real.pi / 360) = Real.arccos a / Real.pi := by
      ring
    rw [heq]
    exact (div_lt_one hpi).mpr hacos

theorem sunrisetDates_none_aux (jd lat lng : ℝ)
    (h : hourAngleAcosArg jd lat lng = none ∨
      ∃ a, hourAngleAcosArg jd lat lng = some a ∧ (a < -1 ∨ 1 < a)) :
    (computeSunrisetDefault jd lat lng).sunrise.date = none ∧
    (computeSunrisetDefault jd lat lng).sunset.date = none := by
  have hha : hourAngleJ jd lat lng = none := by
    rw [hourAngleJ]
    rcases h with h | ⟨a, ha, hmem⟩
    · rw [h, jacosN_none, toDegreesN_none]
    · rw [ha, jacosN_none_of_not_mem a hmem, toDegreesN_none]
  have hjha : julianHourAngleJ jd lat lng = none := by
    rw [julianHourAngleJ, hha, jsub_none_left, jdiv_none_left, jadd_none_right,
      jadd_none_left]
  have hss : sunsetRawJ jd lat lng = none := by
    rw [sunsetRawJ, hjha, jadd_none_left, jsub_none_left]
  have hsr : sunriseRawJ jd lat lng = none := by
    rw [sunriseRawJ, hss, jsub_none_left, jsub_none_right]
  constructor
  · show sunriseDateJ jd lat lng 60 = none
    rw [sunriseDateJ, hsr, jsub_none_left, jsub_none_left]
  · show sunsetDateJ jd lat lng 60 = none
    rw [sunsetDateJ, hss, jsub_none_left, jsub_none_left]

/-- At latitude 90 the denominator of the hour-angle `acos` argument
contains `cos(90°) = 0`, so the JavaScript division yields a non-finite
value. -/
theorem hourAngleAcosArg_at_pole (jd lng : ℝ) : hourAngleAcosArg jd 90 lng = none := by
  rw [hourAngleAcosArg_eq]
  have h90 : (90 : ℝ) * Real.pi / 180 = Real.pi / 2 := by ring
  have hc : Real.cos ((90 : ℝ) * Real.pi / 180) *
      Real.cos (declinationOfSunR jd lng * Real.pi / 180) = 0 := by
    rw [h90, Real.cos_pi_div_two, zero_mul]
  rw [hc]
  exact if_pos rfl

/-- At the equator the hour-angle `acos` argument is
`sin(-0.83°) / cos(arcsin q)` with `|q| ≤ sin(23.45°)`; it stays strictly
inside `(-1, 1)` for every day number and longitude. -/
theorem nonPolarAt_equator (lng jd : ℝ) : NonPolarAt 0 lng jd := by
  set L := eclipticLongitudeR jd lng * Real.pi / 180 with hL
  set q := Real.sin L * Real.sin (23.45 * Real.pi / 180) with hqdef
  have hpi : 0 < Real.pi := Real.pi_pos
  have hpi315 : Real.pi < 3.15 := by linarith [Real.pi_lt_d2]
  have hpi314 : 3.14 < Real.pi := by linarith [Real.pi_gt_d6]
  -- the declination angle in radians is arcsin q
  have hDrad : declinationOfSunR jd lng * Real.pi / 180 = Real.arcsin q := by
    unfold declinationOfSunR
    rw [← hL, ← hqdef]
    field_simp
  -- denominator: cos 0 * cos (arcsin q) = sqrt (1 - q^2)
  have h0 : (0 : ℝ) * Real.pi / 180 = 0 := by ring
  have hden : Real.cos ((0 : ℝ) * Real.pi / 180) *
      Real.cos (declinationOfSunR jd lng * Real.pi / 180) = Real.sqrt (1 - q ^ 2) := by
    rw [h0, Real.cos_zero, one_mul, hDrad, Real.cos_arcsin]
  have hnum : Real.sin (-0.83 * Real.pi / 180) -
      Real.sin ((0 : ℝ) * Real.pi / 180) *
        Real.sin (declinationOfSunR jd lng * Real.pi / 180) =
      Real.sin (-0.83 * Real.pi / 180) := by
    rw [h0, Real.sin_zero, zero_mul, sub_zero]
  -- bound the denominator below by 0.9
  have hspos : 0 < Real.sin (23.45 * Real.pi / 180) :=
    Real.sin_pos_of_pos_of_lt_pi (by positivity) (by nlinarith)
  have hsb : Real.sin (23.45 * Real.pi / 180) ≤ 0.42 := by
    have := Real.sin_le (show (0 : ℝ) ≤ 23.45 * Real.pi / 180 by positivity)
    nlinarith
  have hq2 : q ^ 2 ≤ 0.18 := by
    have h1 : Real.sin L ^ 2 ≤ 1 := Real.sin_sq_le_one L
    have h2 : Real.sin (23.45 * Real.pi / 180) ^ 2 ≤ 0.1764 := by nlinarith
    have h3 : q ^ 2 = Real.sin L ^ 2 * Real.sin (23.45 * Real.pi / 180) ^ 2 := by
      rw [hqdef]; ring
    nlinarith [sq_nonneg (Real.sin L), sq_nonneg (Real.sin (23.45 * Real.pi / 180))]
  have hsqrt_lb : (0.9 : ℝ) ≤ Real.sqrt (1 - q ^ 2) := by
    have h82 : (0.81 : ℝ) ≤ 1 - q ^ 2 := by linarith
    calc (0.9 : ℝ) = Real.sqrt 0.81 := by
          rw [show (0.81 : ℝ) = 0.9 ^ 2 by norm_num, Real.sqrt_sq (by norm_num)]
      _ ≤ Real.sqrt (1 - q ^ 2) := Real.sqrt_le_sqrt h82
  have hdpos : 0 < Real.sqrt (1 - q ^ 2) := by linarith
  -- bound the numerator: sin(-0.83°) is in (-0.015, 0)
  have hx0a : -0.83 * Real.pi / 180 < 0 := by nlinarith
  have hx0b : -Real.pi < -0.83 * Real.pi / 180 := by nlinarith
  have hsinneg : Real.sin (-0.83 * Real.pi / 180) < 0 :=
    Real.sin_neg_of_neg_of_neg_pi_lt hx0a hx0b
  have hsingt : -0.015 < Real.sin (-0.83 * Real.pi / 180) := by
    have hpos : 0 < 0.83 * Real.pi / 180 := by positivity
    have hlt := Real.sin_lt hpos
    have hneg : Real.sin (-(0.83 * Real.pi / 180)) = -Real.sin (0.83 * Real.pi / 180) :=
      Real.sin_neg _
    have harg : -0.83 * Real.pi / 180 = -(0.83 * Real.pi / 180) := by ring
    rw [harg, hneg]
    nlinarith
  refine ⟨Real.sin (-0.83 * Real.pi / 180) / Real.sqrt (1 - q ^ 2), ?_, ?_, ?_⟩
  · rw [hourAngleAcosArg_eq, hnum, hden]
    exact jdiv_some _ _ (ne_of_gt hdpos)
  · rw [lt_div_iff₀ hdpos]
    nlinarith
  · have : Real.sin (-0.83 * Real.pi / 180) / Real.sqrt (1 - q ^ 2) < 0 :=
      div_neg_of_neg_of_pos hsinneg hdpos
    exact this.trans one_pos

theorem sunrisetDates_none_at_pole (jd lng : ℝ) :
    (computeSunrisetDefault jd 90 lng).sunrise.date = none ∧
    (computeSunrisetDefault jd 90 lng).sunset.date = none :=
  sunrisetDates_none_aux jd 90 lng (Or.inl (hourAngleAcosArg_at_pole jd lng))

theorem seasonStepMin_fst (lat lng v : ℝ) (st : ℝ × JSNum) :
    (seasonStepMin lat lng v st).1 = st.1 ∨ (seasonStepMin lat lng v st).1 = v := by
  unfold seasonStepMin
  split_ifs
  exacts [Or.inr rfl, Or.inl rfl]

theorem seasonStepMax_fst (lat lng v : ℝ) (st : ℝ × JSNum) :
    (seasonStepMax lat lng v st).1 = st.1 ∨ (seasonStepMax lat lng v st).1 = v := by
  unfold seasonStepMax
  split_ifs
  exacts [Or.inr rfl, Or.inl rfl]

theorem seasonStepMin_fst_bound (lat lng v : ℝ) (st : ℝ × JSNum) (lo hi : ℝ)
    (hst : lo ≤ st.1 ∧ st.1 ≤ hi) (hv : lo ≤ v ∧ v ≤ hi) :
    lo ≤ (seasonStepMin lat lng v st).1 ∧ (seasonStepMin lat lng v st).1 ≤ hi := by
  rcases seasonStepMin_fst lat lng v st with h | h <;> rw [h]
  exacts [hst, hv]

theorem seasonStepMax_fst_bound (lat lng v : ℝ) (st : ℝ × JSNum) (lo hi : ℝ)
    (hst : lo ≤ st.1 ∧ st.1 ≤ hi) (hv : lo ≤ v ∧ v ≤ hi) :
    lo ≤ (seasonStepMax lat lng v st).1 ∧ (seasonStepMax lat lng v st).1 ≤ hi := by
  rcases seasonStepMax_fst lat lng v st with h | h <;> rw [h]
  exacts [hst, hv]

/-- If the first candidate day's length is finite and below the initial
best `1`, every later candidate of a min-window stays within the window. -/
theorem seasonFoldMin_mem (lat lng vmin : ℝ)
    (h : ∃ d, dayLengthJ lat lng vmin = some d ∧ d < 1) :
    vmin ≤ (seasonFoldMin lat lng vmin).1 ∧ (seasonFoldMin lat lng vmin).1 ≤ vmin + 3 := by
  obtain ⟨d, hd, hd1⟩ := h
  have h1 : seasonStepMin lat lng vmin ((-1 : ℝ), some 1) = (vmin, some d) := by
    unfold seasonStepMin
    rw [hd]
    exact if_pos ((jltP_some_iff d 1).mpr hd1)
  unfold seasonFoldMin
  rw [h1]
  refine seasonStepMin_fst_bound _ _ _ _ _ _ ?_ ⟨by linarith, by linarith⟩
  refine seasonStepMin_fst_bound _ _ _ _ _ _ ?_ ⟨by linarith, by linarith⟩
  refine seasonStepMin_fst_bound _ _ _ _ _ _ ?_ ⟨by linarith, by linarith⟩
  exact ⟨le_refl vmin, by linarith⟩

/-- If the first candidate day's length is finite and above the initial
best `0`, every later candidate of the max-window stays within the window. -/
theorem seasonFoldMax_mem (lat lng vmin : ℝ)
    (h : ∃ d, dayLengthJ lat lng vmin = some d ∧ 0 < d) :
    vmin ≤ (seasonFoldMax lat lng vmin).1 ∧ (seasonFoldMax lat lng vmin).1 ≤ vmin + 3 := by
  obtain ⟨d, hd, hd0⟩ := h
  have h1 : seasonStepMax lat lng vmin ((-1 : ℝ), some 0) = (vmin, some d) := by
    unfold seasonStepMax
    rw [hd]
    exact if_pos ((jltP_some_iff 0 d).mpr hd0)
  unfold seasonFoldMax
  rw [h1]
  refine seasonStepMax_fst_bound _ _ _ _ _ _ ?_ ⟨by linarith, by linarith⟩
  refine seasonStepMax_fst_bound _ _ _ _ _ _ ?_ ⟨by linarith, by linarith⟩
  refine seasonStepMax_fst_bound _ _ _ _ _ _ ?_ ⟨by linarith, by linarith⟩
  exact ⟨le_refl vmin, by linarith⟩

/-- The four season windows are 92, 92 and 91 days apart in every year:
June 20 = March 20 + 92, September 20 = March 20 + 184,
December 20 = March 20 + 275. -/
theorem gregToJulianDay_window_gaps (y : ℤ) :
    gregToJulianDay y 6 20 = gregToJulianDay y 3 20 + 92 ∧
    gregToJulianDay y 9 20 = gregToJulianDay y 3 20 + 184 ∧
    gregToJulianDay y 12 20 = gregToJulianDay y 3 20 + 275 := by
  unfold gregToJulianDay
  norm_num
  refine ⟨by ring, by ring, by ring⟩

/-- The window gaps, lifted to the real-valued window bases used by
`computeSeasons` (the time-of-day terms cancel at noon). -/
theorem seasonWindow_gaps (y : ℤ) :
    ((convertGregorianToJulian ⟨y, 6, 20, 12, 0, 0, 0⟩ : ℚ) : ℝ) =
      ((convertGregorianToJulian ⟨y, 3, 20, 12, 0, 0, 0⟩ : ℚ) : ℝ) + 92 ∧
    ((convertGregorianToJulian ⟨y, 9, 20, 12, 0, 0, 0⟩ : ℚ) : ℝ) =
      ((convertGregorianToJulian ⟨y, 3, 20, 12, 0, 0, 0⟩ : ℚ) : ℝ) + 184 ∧
    ((convertGregorianToJulian ⟨y, 12, 20, 12, 0, 0, 0⟩ : ℚ) : ℝ) =
      ((convertGregorianToJulian ⟨y, 3, 20, 12, 0, 0, 0⟩ : ℚ) : ℝ) + 275 := by
  obtain ⟨h6, h9, h12⟩ := gregToJulianDay_window_gaps y
  unfold convertGregorianToJulian
  refine ⟨?_, ?_, ?_⟩ <;>
    · push_cast [h6, h9, h12]
      ring

/-- C5: for every year and every non-polar coordinate, the season state is
strictly increasing: vernal equinox < estival solstice < autumnal equinox
< hibernal solstice. -/
theorem computeSeasons_ordered (g : GDate) (lat lng : ℝ)
    (h : ∀ jd, NonPolarAt lat lng jd) :
    (computeSeasons g lat lng).vernal_equinox < (computeSeasons g lat lng).estival_solstice ∧
    (computeSeasons g lat lng).estival_solstice < (computeSeasons g lat lng).autumnal_equinox ∧
    (computeSeasons g lat lng).autumnal_equinox < (computeSeasons g lat lng).hibernal_solstice := by
  obtain ⟨h6, h9, h12⟩ := seasonWindow_gaps g.year
  have hv := seasonFoldMin_mem lat lng
    ((convertGregorianToJulian ⟨g.year, 3, 20, 12, 0, 0, 0⟩ : ℚ) : ℝ)
    (by obtain ⟨d, hd, h0, h1⟩ := dayLength_of_nonpolar lat lng _ (h _); exact ⟨d, hd, h1⟩)
  have he := seasonFoldMax_mem lat lng
    ((convertGregorianToJulian ⟨g.year, 6, 20, 12, 0, 0, 0⟩ : ℚ) : ℝ)
    (by obtain ⟨d, hd, h0, h1⟩ := dayLength_of_nonpolar lat lng _ (h _); exact ⟨d, hd, h0⟩)
  have ha := seasonFoldMin_mem lat lng
    ((convertGregorianToJulian ⟨g.year, 9, 20, 12, 0, 0, 0⟩ : ℚ) : ℝ)
    (by obtain ⟨d, hd, h0, h1⟩ := dayLength_of_nonpolar lat lng _ (h _); exact ⟨d, hd, h1⟩)
  have hh := seasonFoldMin_mem lat lng
    ((convertGregorianToJulian ⟨g.year, 12, 20, 12, 0, 0, 0⟩ : ℚ) : ℝ)
    (by obtain ⟨d, hd, h0, h1⟩ := dayLength_of_nonpolar lat lng _ (h _); exact ⟨d, hd, h1⟩)
  simp only [computeSeasons]
  refine ⟨?_, ?_, ?_⟩ <;> linarith [hv.1, hv.2, he.1, he.2, ha.1, ha.2, hh.1, hh.2]

/-- C10: at a coordinate where `computeSunriset` yields non-finite sunrise
and sunset dates for every sampled day, every selection comparison against
the NaN day length is false, so no candidate is ever assigned and all four
season fields keep the sentinel `-1`: the failure is masked into `-1`
rather than propagated. -/
theorem computeSeasons_sentinel (g : GDate) (lat lng : ℝ)
    (h : ∀ v, (computeSunrisetDefault v lat lng).sunrise.date = none ∧
      (computeSunrisetDefault v lat lng).sunset.date = none) :
    (computeSeasons g lat lng).vernal_equinox = -1 ∧
    (computeSeasons g lat lng).estival_solstice = -1 ∧
    (computeSeasons g lat lng).autumnal_equinox = -1 ∧
    (computeSeasons g lat lng).hibernal_solstice = -1 := by
  have hdl : ∀ v, dayLengthJ lat lng v = none := fun v => by
    rw [dayLengthJ, (h v).1, (h v).2, jsub_none_left]
  have hmin : ∀ v st, seasonStepMin lat lng v st = st := fun v st => by
    rw [seasonStepMin, hdl, if_neg (jltP_none_left _)]
  have hmax : ∀ v st, seasonStepMax lat lng v st = st := fun v st => by
    rw [seasonStepMax, hdl, if_neg (jltP_none_right _)]
  simp only [computeSeasons, seasonFoldMin, seasonFoldMax, hmin, hmax]
  exact ⟨trivial, trivial, trivial, trivial⟩

/-- C3 (amended): for every nonnegative day number `dn` (every actual
Julian day number is), the `next_update` value is strictly greater than
`dn`.  For negative `dn` the JavaScript `%` is negative and the claim
fails: see the counterexample. -/
theorem nextUpdate_gt (dn : ℝ) (h : 0 ≤ dn) : dn < nextUpdateR dn := by
  have hmod : jsModR dn 1 = dn - (⌊dn⌋ : ℝ) := by
    rw [jsModR, div_one, jsTruncR, if_pos h, one_mul]
  rw [nextUpdateR, hmod]
  have h1 := Int.floor_le dn
  have h2 := Int.lt_floor_add_one dn
  split_ifs with hc
  · linarith
  · linarith

/-- C3 counterexample: at `dn = -1/5` the formula yields
`-1 + 0.7063657403923571 < -1/5`, so `next_update` is not strictly greater
than the input for every `dn`. -/
theorem nextUpdate_not_gt_at_neg : ¬ ((-1/5 : ℝ) < nextUpdateR (-1/5)) := by
  have hfl : ⌊(-1/5 : ℝ)⌋ = -1 := by
    rw [Int.floor_eq_iff]
    constructor <;> norm_num
  have hce : ⌈(-1/5 : ℝ)⌉ = 0 := by
    rw [Int.ceil_eq_iff]
    constructor <;> norm_num
  have hmod : jsModR (-1/5) 1 = -1/5 := by
    rw [jsModR, div_one, jsTruncR, if_neg (by norm_num : ¬ (0 : ℝ) ≤ -1/5), hce]
    norm_num
  rw [nextUpdateR, hmod, hfl, if_pos (by norm_num : (-1/5 : ℝ) < 0.7063657403923571)]
  push_cast
  norm_num

/-- C7: after every `updateGeoCoords(lat, lng)` the stored coordinates
satisfy latitude ∈ [-90, 90] and longitude ∈ [-180, 180]; in particular
`updateGeoCoords(91, 0)` stores latitude exactly 90. -/
theorem updateGeoCoords_clamps :
    (∀ lat lng : ℚ, -90 ≤ (updateGeoCoords lat lng).1 ∧ (updateGeoCoords lat lng).1 ≤ 90 ∧
      -180 ≤ (updateGeoCoords lat lng).2 ∧ (updateGeoCoords lat lng).2 ≤ 180) ∧
    (updateGeoCoords 91 0).1 = 90 := by
  constructor
  · intro lat lng
    unfold updateGeoCoords
    refine ⟨?_, ?_, ?_, ?_⟩ <;> dsimp only <;> split_ifs <;> linarith
  · norm_num [updateGeoCoords]

/-- C8: when the current day number is at or past
`sunset.date + sunset.duration/1440` and outside the daylight interval,
`draw` sets `sun_state = 3` (Set) and the overlay alpha is exactly
`brightness_night`. -/
theorem drawSun_set_phase (jd : ℝ) (sol : SolarState) (b sr sd : ℝ)
    (hsr : sol.sunrise.date = some sr) (hsd : sol.sunset.date = some sd)
    (hpast : sd + sol.sunset.duration / 1440 ≤ jd)
    (hday : ¬ (sr ≤ jd ∧ jd < sd)) :
    drawSun jd sol b = (3, some b) := by
  have hpast' : jleP (jadd (some sd) (some (sol.sunset.duration / 1440))) (some jd) := by
    rw [jadd_some]
    exact hpast
  have hday' : ¬ (jleP (some sr) (some jd) ∧ jltP (some jd) (some sd)) := hday
  rw [drawSun, hsr, hsd, if_neg hday', if_pos (Or.inl hpast')]

theorem drawSun_set_witness :
    drawSun 0.5 ⟨⟨some 0, 60⟩, ⟨some (1/4), 60⟩, 1⟩ (4/5) = (3, some (4/5)) :=
  drawSun_set_phase 0.5 ⟨⟨some 0, 60⟩, ⟨some (1/4), 60⟩, 1⟩ (4/5) 0 (1/4) rfl rfl
    (by norm_num) (by norm_num)

/-- C6: whenever the hour-angle `acos` argument is non-finite or leaves
`[-1, 1]`, `computeSunriset` still returns a `SolarState`, and its
`sunrise.date` and `sunset.date` are the propagated non-finite value
rather than any default. -/
theorem computeSunriset_nan_propagates (jd lat lng : ℝ)
    (h : hourAngleAcosArg jd lat lng = none ∨
      ∃ a, hourAngleAcosArg jd lat lng = some a ∧ (a < -1 ∨ 1 < a)) :
    (computeSunrisetDefault jd lat lng).sunrise.date = none ∧
    (computeSunrisetDefault jd lat lng).sunset.date = none :=
  sunrisetDates_none_aux jd lat lng h

theorem computeSunriset_nan_witness :
    (computeSunrisetDefault 2451545 90 0).sunrise.date = none ∧
    (computeSunrisetDefault 2451545 90 0).sunset.date = none :=
  computeSunriset_nan_propagates 2451545 90 0 (Or.inl (hourAngleAcosArg_at_pole 2451545 0))

theorem computeSunriset_lt_witness :
    jltP (computeSunrisetDefault 2451545 0 0).sunrise.date
      (computeSunrisetDefault 2451545 0 0).sunset.date :=
  computeSunriset_lt_of_nonpolar 2451545 0 0 (nonPolarAt_equator 0 2451545)

theorem computeSeasons_ordered_witness :
    (computeSeasons ⟨2000, 1, 1, 0, 0, 0, 0⟩ 0 0).vernal_equinox <
      (computeSeasons ⟨2000, 1, 1, 0, 0, 0, 0⟩ 0 0).estival_solstice ∧
    (computeSeasons ⟨2000, 1, 1, 0, 0, 0, 0⟩ 0 0).estival_solstice <
      (computeSeasons ⟨2000, 1, 1, 0, 0, 0, 0⟩ 0 0).autumnal_equinox ∧
    (computeSeasons ⟨2000, 1, 1, 0, 0, 0, 0⟩ 0 0).autumnal_equinox <
      (computeSeasons ⟨2000, 1, 1, 0, 0, 0, 0⟩ 0 0).hibernal_solstice :=
  computeSeasons_ordered ⟨2000, 1, 1, 0, 0, 0, 0⟩ 0 0 (fun jd => nonPolarAt_equator 0 jd)

theorem computeSeasons_sentinel_witness :
    (computeSeasons ⟨2000, 1, 1, 0, 0, 0, 0⟩ 90 0).vernal_equinox = -1 ∧
    (computeSeasons ⟨2000, 1, 1, 0, 0, 0, 0⟩ 90 0).estival_solstice = -1 ∧
    (computeSeasons ⟨2000, 1, 1, 0, 0, 0, 0⟩ 90 0).autumnal_equinox = -1 ∧
    (computeSeasons ⟨2000, 1, 1, 0, 0, 0, 0⟩ 90 0).hibernal_solstice = -1 :=
  computeSeasons_sentinel ⟨2000, 1, 1, 0, 0, 0, 0⟩ 90 0
    (fun v => sunrisetDates_none_at_pole v 0)

theorem nextUpdate_gt_witness : (2451545 : ℝ) < nextUpdateR 2451545 :=
  nextUpdate_gt 2451545 (by norm_num)

/-- Witness for the round-trip theorem: 2020-06-15 13:30:45.500 is in the
afternoon band and round-trips exactly. -/
theorem roundtrip_instant_exact_witness :
    dateInstantMs (convertJulianToGregorian
      (convertGregorianToJulian ⟨2020, 6, 15, 13, 30, 45, 500⟩)) =
    dateInstantMs (⟨2020, 6, 15, 13, 30, 45, 500⟩ : GDate) :=
  roundtrip_instant_exact ⟨2020, 6, 15, 13, 30, 45, 500⟩ (by decide) (by decide)
    (by decide) (by decide) (by decide) (by decide) (by decide) (by decide) (by decide)
    (by decide) (by decide) (by decide) (by decide) (Or.inl (by decide))
